import Mathlib

/-!
# ROOT RNTuple pages (tree/ntuple/v7/inc/ROOT/RPage.hxx)

A shallow embedding of `ROOT::Experimental::Internal::RPage`.  Pointers are addresses
(natural numbers, `nullptr` is `0`); unsigned machine integers are natural numbers with an
explicit reduction modulo `2 ^ w` wherever the C++ code computes in a `w`-bit type.
-/

namespace RNTuple

/-! ## Definitions -/

/-- Declarations that RPage.hxx takes from files which are not among the sources:
the bit widths of the unsigned integer types `NTupleSize_t` and `ClusterSize_t::ValueType`
and the sentinel `kInvalidColumnId` (all from ROOT/RNTupleUtil.hxx), and the address handed
out by `RPage::GetPageZeroBuffer()`.  Both integer types are mixed with `std::uint32_t`
counters in RPage.hxx and are at least that wide, so that mixed arithmetic is carried out
in the wider type. -/
structure Env where
  ntupleBits : Nat
  clusterBits : Nat
  ntupleBits_ge : 32 ≤ ntupleBits
  clusterBits_ge : 32 ≤ clusterBits
  kInvalidColumnId : Int
  pageZeroAddr : Nat

/-- The values of upstream ROOT: `NTupleSize_t` and `ClusterSize_t::ValueType` are
`std::uint64_t`, `kInvalidColumnId` is `-1`; the zero buffer sits at some address. -/
def root64 : Env :=
  { ntupleBits := 64, clusterBits := 64, ntupleBits_ge := by decide,
    clusterBits_ge := by decide, kInvalidColumnId := -1, pageZeroAddr := 1048576 }

/-- Conversion of a value to an unsigned integer type of `w` bits. -/
def toUnsigned (w n : Nat) : Nat := n % 2 ^ w

/-- Addition in an unsigned integer type of `w` bits. -/
def uadd (w a b : Nat) : Nat := (a + b) % 2 ^ w

/-- Subtraction in an unsigned integer type of `w` bits (wraps around below zero). -/
def usub (w a b : Nat) : Nat := (a + (2 ^ w - b % 2 ^ w)) % 2 ^ w

/-- The constant `RPage::kPageZeroSize = 64 * 1024`. -/
def kPageZeroSize : Nat := 64 * 1024

/-- The class `RPage::RClusterInfo`: cluster number and first element index of the column
in this cluster; both members default to 0. -/
structure RClusterInfo where
  fId : Nat := 0
  fIndexOffset : Nat := 0
deriving DecidableEq, Repr

namespace RClusterInfo

/-- The accessor `RClusterInfo::GetId`. -/
def GetId (c : RClusterInfo) : Nat := c.fId

/-- The accessor `RClusterInfo::GetIndexOffset`. -/
def GetIndexOffset (c : RClusterInfo) : Nat := c.fIndexOffset

end RClusterInfo

/-- Modelled from the spec: the class `RClusterIndex` (ROOT/RNTupleUtil.hxx) is not among
the sources; RPage.hxx only calls its accessors `GetClusterId()` and `GetIndex()`.  The spec
passes it to `Contains` as the pair (clusterId, clusterLocalIndex). -/
structure RClusterIndex where
  fClusterId : Nat
  fIndex : Nat
deriving DecidableEq, Repr

namespace RClusterIndex

/-- The accessor `RClusterIndex::GetClusterId`. -/
def GetClusterId (c : RClusterIndex) : Nat := c.fClusterId

/-- The accessor `RClusterIndex::GetIndex`. -/
def GetIndex (c : RClusterIndex) : Nat := c.fIndex

end RClusterIndex

/-- The data members of `RPage`.  `fBuffer` and `fPageAllocator` are addresses (0 is
`nullptr`); `fElementSize`, `fNElements`, `fMaxElements` are `std::uint32_t`; `fRangeFirst`
is an `NTupleSize_t`. -/
structure RPage where
  fColumnId : Int
  fBuffer : Nat
  fPageAllocator : Nat
  fElementSize : Nat
  fNElements : Nat
  fMaxElements : Nat
  fRangeFirst : Nat
  fClusterInfo : RClusterInfo
deriving DecidableEq, Repr

namespace RPage

/-- The constructor `RPage() = default`: every member takes its default initializer. -/
def RPageDefault (E : Env) : RPage :=
  { fColumnId := E.kInvalidColumnId, fBuffer := 0, fPageAllocator := 0, fElementSize := 0,
    fNElements := 0, fMaxElements := 0, fRangeFirst := 0, fClusterInfo := {} }

/-- The constructor `RPage(columnId, buffer, pageAllocator, elementSize, maxElements)`.
The two sizes arrive as `ClusterSize_t::ValueType` and are stored in `std::uint32_t`
members; the members not named in the initializer list keep their defaults. -/
def RPageBound (columnId : Int) (buffer pageAllocator elementSize maxElements : Nat) : RPage :=
  { fColumnId := columnId, fBuffer := buffer, fPageAllocator := pageAllocator,
    fElementSize := elementSize % 2 ^ 32, fNElements := 0,
    fMaxElements := maxElements % 2 ^ 32, fRangeFirst := 0, fClusterInfo := {} }

/-- The move constructor `RPage(RPage &&other)`: returns the new page and what is left
of `other`. -/
def RPageMove (other : RPage) : RPage × RPage :=
  (other, { other with fPageAllocator := 0 })

/-- The accessor `GetColumnId`. -/
def GetColumnId (p : RPage) : Int := p.fColumnId

/-- The method `GetNBytes`: a `std::uint32_t` product. -/
def GetNBytes (p : RPage) : Nat := (p.fElementSize * p.fNElements) % 2 ^ 32

/-- The accessor `GetNElements`. -/
def GetNElements (p : RPage) : Nat := p.fNElements

/-- The accessor `GetMaxElements`. -/
def GetMaxElements (p : RPage) : Nat := p.fMaxElements

/-- The accessor `GetGlobalRangeFirst`. -/
def GetGlobalRangeFirst (p : RPage) : Nat := p.fRangeFirst

/-- The method `GetGlobalRangeLast`: `fRangeFirst + NTupleSize_t(fNElements) - 1` in
`NTupleSize_t` arithmetic. -/
def GetGlobalRangeLast (E : Env) (p : RPage) : Nat :=
  usub E.ntupleBits (uadd E.ntupleBits p.fRangeFirst (toUnsigned E.ntupleBits p.fNElements)) 1

/-- The method `GetClusterRangeFirst`: the `NTupleSize_t` difference, returned as a
`ClusterSize_t::ValueType`. -/
def GetClusterRangeFirst (E : Env) (p : RPage) : Nat :=
  toUnsigned E.clusterBits (usub E.ntupleBits p.fRangeFirst p.fClusterInfo.GetIndexOffset)

/-- The method `GetClusterRangeLast`: `GetClusterRangeFirst() + NTupleSize_t(fNElements) - 1`,
computed in the wider of the two types and returned as a `ClusterSize_t::ValueType`. -/
def GetClusterRangeLast (E : Env) (p : RPage) : Nat :=
  toUnsigned E.clusterBits
    (usub (max E.clusterBits E.ntupleBits)
      (uadd (max E.clusterBits E.ntupleBits) (GetClusterRangeFirst E p)
        (toUnsigned E.ntupleBits p.fNElements)) 1)

/-- The accessor `GetClusterInfo`. -/
def GetClusterInfo (p : RPage) : RClusterInfo := p.fClusterInfo

/-- The method `Contains(NTupleSize_t globalIndex)`; the upper bound
`fRangeFirst + NTupleSize_t(fNElements)` is an `NTupleSize_t` sum. -/
def Contains (E : Env) (p : RPage) (globalIndex : Nat) : Bool :=
  decide (globalIndex ≥ p.fRangeFirst) &&
    decide (globalIndex <
      uadd E.ntupleBits p.fRangeFirst (toUnsigned E.ntupleBits p.fNElements))

/-- The method `Contains(RClusterIndex clusterIndex)`.  `clusterRangeFirst` is the
`NTupleSize_t` difference converted to `ClusterSize_t`; the upper bound
`clusterRangeFirst + fNElements` is a `ClusterSize_t::ValueType` sum. -/
def ContainsCluster (E : Env) (p : RPage) (clusterIndex : RClusterIndex) : Bool :=
  if p.fClusterInfo.GetId ≠ clusterIndex.GetClusterId then false
  else
    let clusterRangeFirst :=
      toUnsigned E.clusterBits (usub E.ntupleBits p.fRangeFirst p.fClusterInfo.GetIndexOffset)
    decide (clusterIndex.GetIndex ≥ clusterRangeFirst) &&
      decide (clusterIndex.GetIndex < uadd E.clusterBits clusterRangeFirst p.fNElements)

/-- The accessor `GetBuffer`. -/
def GetBuffer (p : RPage) : Nat := p.fBuffer

/-- The method `GrowUnchecked(nElements)`: returns the pointer `fBuffer + GetNBytes()`
(taken before the update) and the page after `fNElements += nElements`, a sum stored
back into the `std::uint32_t` counter. -/
def GrowUnchecked (p : RPage) (nElements : Nat) : Nat × RPage :=
  (p.fBuffer + p.GetNBytes, { p with fNElements := (p.fNElements + nElements) % 2 ^ 32 })

/-- The method `SetWindow(rangeFirst, clusterInfo)`. -/
def SetWindow (p : RPage) (rangeFirst : Nat) (clusterInfo : RClusterInfo) : RPage :=
  { p with fClusterInfo := clusterInfo, fRangeFirst := rangeFirst }

/-- The method `Reset(rangeFirst)`. -/
def Reset (p : RPage) (rangeFirst : Nat) : RPage :=
  { p with fNElements := 0, fRangeFirst := rangeFirst }

/-- The method `ResetCluster(clusterInfo)`. -/
def ResetCluster (p : RPage) (clusterInfo : RClusterInfo) : RPage :=
  { p with fNElements := 0, fClusterInfo := clusterInfo }

/-- Modelled from the spec: `RPage::GetPageZeroBuffer()` is only declared in RPage.hxx,
its body is not among the sources.  The spec describes one process-wide zero-filled
buffer that every zero page aliases, so each call yields the same address, the one of the
environment. -/
def GetPageZeroBuffer (E : Env) : Nat := E.pageZeroAddr

/-- The static method `MakePageZero(columnId, elementSize)`.  The quotient
`kPageZeroSize / elementSize` is undefined for `elementSize == 0` (no page is returned);
otherwise it is at most 65536 and reaches the constructor unchanged. -/
def MakePageZero (E : Env) (columnId : Int) (elementSize : Nat) : Option RPage :=
  if elementSize = 0 then none
  else some (RPageBound columnId (GetPageZeroBuffer E) 0 elementSize (kPageZeroSize / elementSize))

/-- The predicate `IsValid`. -/
def IsValid (E : Env) (p : RPage) : Bool := decide (p.fColumnId ≠ E.kInvalidColumnId)

/-- The predicate `IsNull`. -/
def IsNull (p : RPage) : Bool := decide (p.fBuffer = 0)

/-- The predicate `IsPageZero`. -/
def IsPageZero (E : Env) (p : RPage) : Bool := decide (p.fBuffer = GetPageZeroBuffer E)

/-- The predicate `IsEmpty`. -/
def IsEmpty (p : RPage) : Bool := decide (p.fNElements = 0)

/-- The comparison `operator==`: buffer addresses are compared. -/
def eq (p other : RPage) : Bool := decide (p.fBuffer = other.fBuffer)

/-- The comparison `operator!=`. -/
def ne (p other : RPage) : Bool := !(p.eq other)

/-- The page after the calls `GrowUnchecked(n)` for the `n` of a list, in order; the
returned pointers are dropped. -/
def growAll (p : RPage) : List Nat → RPage
  | [] => p
  | n :: ns => growAll (p.GrowUnchecked n).2 ns

end RPage

/-- One call of a mutating method of `RPage`. -/
inductive Op where
  | growUnchecked (nElements : Nat)
  | setWindow (rangeFirst : Nat) (clusterInfo : RClusterInfo)
  | reset (rangeFirst : Nat)
  | resetCluster (clusterInfo : RClusterInfo)
deriving DecidableEq, Repr

namespace Op

/-- The page after one call. -/
def apply (p : RPage) : Op → RPage
  | growUnchecked n => (p.GrowUnchecked n).2
  | setWindow r w => p.SetWindow r w
  | reset r => p.Reset r
  | resetCluster w => p.ResetCluster w

/-- The caller contract of a call on page `p`: the comment on `GrowUnchecked` makes the
caller responsible for `fNElements + nElements <= fMaxElements`; the other methods have
no precondition. -/
def meetsContract (p : RPage) : Op → Bool
  | growUnchecked n => decide (p.fNElements + n ≤ p.fMaxElements)
  | _ => true

end Op

/-- The page after a sequence of calls. -/
def run (p : RPage) : List Op → RPage
  | [] => p
  | op :: ops => run (op.apply p) ops

/-- Every call of the sequence meets its contract on the page it is applied to. -/
def contractOk (p : RPage) : List Op → Bool
  | [] => true
  | op :: ops => op.meetsContract p && contractOk (op.apply p) ops

/-- A page as one of the three constructions leaves it: default-constructed, bound by
the five-argument constructor, or a zero page. -/
def Constructed (E : Env) (p : RPage) : Prop :=
  p = RPage.RPageDefault E ∨
  (∃ columnId buffer pageAllocator elementSize maxElements,
      p = RPage.RPageBound columnId buffer pageAllocator elementSize maxElements) ∨
  (∃ columnId elementSize, RPage.MakePageZero E columnId elementSize = some p)

/-- The element count is within the capacity, and the capacity is a 32-bit value. -/
def WithinCapacity (p : RPage) : Prop :=
  p.fNElements ≤ p.fMaxElements ∧ p.fMaxElements < 2 ^ 32

/-- The members that no method other than construction and moves assigns: column id,
buffer, allocator, element size and capacity. -/
def fixedMembers (p : RPage) : Int × Nat × Nat × Nat × Nat :=
  (p.fColumnId, p.fBuffer, p.fPageAllocator, p.fElementSize, p.fMaxElements)

/-- Modelled from the spec: `RPage::ReleaseBuffer()` is only declared in RPage.hxx, its body
is not among the sources.  The spec returns a page to its allocator through `DeletePage`,
"a no-op if the page is the zero-page or unbound".  The result tells whether `DeletePage`
is called on the allocator of the page. -/
def RPage.ReleaseBuffer (E : Env) (p : RPage) : Bool :=
  decide (p.fPageAllocator ≠ 0) && !(p.IsPageZero E)

/-- Modelled from the spec: the class `RPageRef` is only forward-declared (and befriended)
in RPage.hxx.  The spec describes a reference-counted handle around one page: the state
shared by all handles is the wrapped page, the reference count, and the number of times
the page was returned to its allocator (what an allocator call-count test double
observes). -/
structure RPageRef where
  fPage : RPage
  fRefCount : Nat
  fNDeletePage : Nat
deriving DecidableEq, Repr

namespace RPageRef

/-- Modelled from the spec: `Acquire(page)` "takes ownership of a Page value, initializes a
reference count of 1". -/
def Acquire (page : RPage) : RPageRef :=
  { fPage := page, fRefCount := 1, fNDeletePage := 0 }

/-- Modelled from the spec: "Cloning a PageRef increments the count". -/
def Clone (s : RPageRef) : RPageRef :=
  { s with fRefCount := s.fRefCount + 1 }

/-- Modelled from the spec: "dropping a PageRef decrements it; reaching zero returns the
wrapped Page to its allocator (DeletePage), a no-op if the page is the zero-page or
unbound".  With no reference left there is nothing to drop. -/
def Drop (E : Env) (s : RPageRef) : RPageRef :=
  if s.fRefCount = 0 then s
  else if s.fRefCount - 1 = 0 then
    { s with fRefCount := 0,
             fNDeletePage := s.fNDeletePage + (if s.fPage.ReleaseBuffer E then 1 else 0) }
  else { s with fRefCount := s.fRefCount - 1 }

/-- The state after cloning `n` times. -/
def CloneN : Nat → RPageRef → RPageRef
  | 0, s => s
  | n + 1, s => CloneN n s.Clone

/-- The state after dropping `n` references. -/
def DropN (E : Env) : Nat → RPageRef → RPageRef
  | 0, s => s
  | n + 1, s => DropN E n (s.Drop E)

end RPageRef

/-- The move assignment `operator=(RPage &&other)`.  Page objects live in a store, indexed
by their addresses; `self` is the address `this`.  When the two addresses differ, each of
the eight members is exchanged by `std::swap`; otherwise nothing happens. -/
def moveAssign (s : Nat → RPage) (self other : Nat) : Nat → RPage :=
  if self ≠ other then
    fun a =>
      if a = self then
        { fColumnId := (s other).fColumnId, fBuffer := (s other).fBuffer,
          fPageAllocator := (s other).fPageAllocator, fElementSize := (s other).fElementSize,
          fNElements := (s other).fNElements, fMaxElements := (s other).fMaxElements,
          fRangeFirst := (s other).fRangeFirst, fClusterInfo := (s other).fClusterInfo }
      else if a = other then
        { fColumnId := (s self).fColumnId, fBuffer := (s self).fBuffer,
          fPageAllocator := (s self).fPageAllocator, fElementSize := (s self).fElementSize,
          fNElements := (s self).fNElements, fMaxElements := (s self).fMaxElements,
          fRangeFirst := (s self).fRangeFirst, fClusterInfo := (s self).fClusterInfo }
      else s a
  else s

end RNTuple

/-! ## ROOT::TThreadExecutor (core/imt/inc/ROOT/TThreadExecutor.hxx)

The template methods of the header.  `unsigned` is a 32-bit type.  A method returns `none`
when the C++ code has no defined result (a division by zero, a write outside a vector, a
loop that does not end). -/

namespace TThreadExecutor

open RNTuple

/-- The loop `for (i = start; i < stop; i += step)` with a bound on the number of rounds:
the values of `i` for which the body runs. -/
def forLoop (stop step : Nat) : Nat → Nat → List Nat
  | 0, _ => []
  | fuel + 1, i => if i < stop then i :: forLoop stop step fuel (i + step) else []

/-- Modelled from the spec: `ParallelFor(start, end, step, f)` is only declared in
TThreadExecutor.hxx, its body is not among the sources.  It is taken as one call `f(i)` for
each `i = start, start + step, ...` with `i < end`; the result lists these `i` in order.
With a positive step at most `end - start` rounds are made; with step 0 and `start < end`
the loop does not end. -/
def ParallelFor (start stop step : Nat) : Option (List Nat) :=
  if step = 0 ∧ start < stop then none
  else some (forLoop stop step (stop - start) start)

/-- Modelled from the spec: `Reduce(objs, redfunc)` forwards to `ParallelReduce`, which is
only declared in the header.  It is taken as the left fold of the binary `redfunc` over the
vector, starting from its first element; an empty vector has no first element. -/
def Reduce {α : Type} (objs : List α) (redfunc : α → α → α) : Option α :=
  match objs with
  | [] => none
  | x :: xs => some (xs.foldl redfunc x)

/-- The assignment `v[k] = x` of a vector element; there is no result outside the vector. -/
def writeAt {α : Type} (v : List α) (k : Nat) (x : α) : Option (List α) :=
  if k < v.length then some (v.set k x) else none

/-- The chunk size `unsigned step = (n + nChunks - 1) / nChunks` for `nChunks != 0`. -/
def chunkStep (n nChunks : Nat) : Nat :=
  usub 32 (uadd 32 n nChunks) 1 / nChunks

/-- The count `unsigned actualChunks = (n + step - 1) / step`; the quotient is undefined
for `step == 0`. -/
def actualChunks (n step : Nat) : Option Nat :=
  if step = 0 then none else some (usub 32 (uadd 32 n step) 1 / step)

/-- The values of `j` for which the body of
`for (unsigned j = 0; j < step && (i + j) < n; j++)` runs. -/
def chunkJs (n step i : Nat) : List Nat :=
  (List.range step).takeWhile (fun j => decide (uadd 32 i j < n))

/-- The indices `i + j` met by the loop of one chunk. -/
def chunkIndices (n step i : Nat) : List Nat :=
  (chunkJs n step i).map (fun j => uadd 32 i j)

/-- The method `Foreach(func, nTimes, nChunks)`: the number of calls of `func`. -/
def Foreach (nTimes nChunks : Nat) : Option Nat :=
  if nChunks = 0 then
    (ParallelFor 0 nTimes 1).map (fun is => is.length)
  else
    (ParallelFor 0 nTimes (chunkStep nTimes nChunks)).map
      (fun is => (is.map (fun i => (chunkJs nTimes (chunkStep nTimes nChunks) i).length)).sum)

/-- The method `Foreach(func, std::vector<T> &args, nChunks)`: the vector elements
`args[k]` handed to `func`, in the order of the calls (`none` stands for an index outside
the vector). -/
def ForeachVector {α : Type} (args : List α) (nChunks : Nat) : Option (List (Option α)) :=
  if nChunks = 0 then
    (ParallelFor 0 (toUnsigned 32 args.length) 1).map (fun is => is.map (fun i => args[i]?))
  else
    (ParallelFor 0 (toUnsigned 32 args.length)
        (chunkStep (toUnsigned 32 args.length) nChunks)).map
      (fun is => is.flatMap (fun i =>
        (chunkIndices (toUnsigned 32 args.length)
          (chunkStep (toUnsigned 32 args.length) nChunks) i).map (fun k => args[k]?)))

/-- The results of the lambdas of a `ParallelFor`, each one updating the result vector. -/
def runLambdas {α : Type} (lambda : Nat → List α → Option (List α)) :
    List Nat → List α → Option (List α)
  | [], reslist => some reslist
  | i :: is, reslist =>
    match lambda i reslist with
    | none => none
    | some r => runLambdas lambda is r

/-- The method `Map(func, std::vector<T> &args)`: `reslist[i] = func(args[i])` for each
index, on a vector of `nToProcess` value-initialised elements (`dflt`). -/
def MapVector {α : Type} (dflt : α) (func : α → α) (args : List α) : Option (List α) :=
  match ParallelFor 0 (toUnsigned 32 args.length) 1 with
  | none => none
  | some is =>
    runLambdas (fun i reslist => writeAt reslist i (func (args.getD i dflt))) is
      (List.replicate (toUnsigned 32 args.length) dflt)

/-- The vector `partialResults` of one chunk of `Map(func, args, redfunc, nChunks)`:
`std::vector<T> partialResults(step)`, value-initialised, with `partialResults[j]`
assigned `func(args[i + j])` for the `j` of the loop. -/
def partialResultsVector {α : Type} (dflt : α) (func : α → α) (args : List α)
    (n step i : Nat) : List α :=
  (chunkJs n step i).foldl (fun pr j => pr.set j (func (args.getD (uadd 32 i j) dflt)))
    (List.replicate step dflt)

/-- The method `Map(func, std::vector<T> &args, redfunc, nChunks)`.  Element type and
result type are the same type here, with value-initialised element `dflt`. -/
def MapVectorChunked {α : Type} (dflt : α) (func : α → α) (args : List α)
    (redfunc : α → α → α) (nChunks : Nat) : Option (List α) :=
  if nChunks = 0 then MapVector dflt func args
  else
    match actualChunks (toUnsigned 32 args.length)
        (chunkStep (toUnsigned 32 args.length) nChunks) with
    | none => none
    | some nActual =>
      match ParallelFor 0 (toUnsigned 32 args.length)
          (chunkStep (toUnsigned 32 args.length) nChunks) with
      | none => none
      | some is =>
        runLambdas
          (fun i reslist =>
            match Reduce (partialResultsVector dflt func args (toUnsigned 32 args.length)
                (chunkStep (toUnsigned 32 args.length) nChunks) i) redfunc with
            | none => none
            | some r => writeAt reslist (i / chunkStep (toUnsigned 32 args.length) nChunks) r)
          is (List.replicate nActual dflt)

/-- The method `Map(func, nTimes, redfunc, nChunks)` for `nChunks != 0`, with `func()`
returning `v` at every call: `partialResults` has `std::min(nTimes - i, step)` elements. -/
def MapTimesChunked {α : Type} (dflt v : α) (nTimes : Nat) (redfunc : α → α → α)
    (nChunks : Nat) : Option (List α) :=
  match actualChunks nTimes (chunkStep nTimes nChunks) with
  | none => none
  | some nActual =>
    match ParallelFor 0 nTimes (chunkStep nTimes nChunks) with
    | none => none
    | some is =>
      runLambdas
        (fun i reslist =>
          match Reduce
              ((chunkJs nTimes (chunkStep nTimes nChunks) i).foldl (fun pr j => pr.set j v)
                (List.replicate (min (usub 32 nTimes i) (chunkStep nTimes nChunks)) dflt))
              redfunc with
          | none => none
          | some r => writeAt reslist (i / chunkStep nTimes nChunks) r)
        is (List.replicate nActual dflt)

/-- The method `MapReduce(func, std::vector<T> &args, redfunc)`. -/
def MapReduceVector {α : Type} (dflt : α) (func : α → α) (args : List α)
    (redfunc : α → α → α) : Option α :=
  match MapVector dflt func args with
  | none => none
  | some reslist => Reduce reslist redfunc

/-- The method `MapReduce(func, std::vector<T> &args, redfunc, nChunks)`. -/
def MapReduceVectorChunked {α : Type} (dflt : α) (func : α → α) (args : List α)
    (redfunc : α → α → α) (nChunks : Nat) : Option α :=
  match MapVectorChunked dflt func args redfunc nChunks with
  | none => none
  | some reslist => Reduce reslist redfunc

end TThreadExecutor

namespace RNTuple

/-! ## Theorems -/

/-! ### Unsigned arithmetic -/

theorem toUnsigned_of_lt {w n : Nat} (h : n < 2 ^ w) : toUnsigned w n = n :=
  Nat.mod_eq_of_lt h

theorem uadd_of_lt {w a b : Nat} (h : a + b < 2 ^ w) : uadd w a b = a + b :=
  Nat.mod_eq_of_lt h

theorem usub_of_le {w a b : Nat} (ha : a < 2 ^ w) (hb : b ≤ a) : usub w a b = a - b := by
  unfold usub
  have hb2 : b % 2 ^ w = b := Nat.mod_eq_of_lt (lt_of_le_of_lt hb ha)
  rw [hb2]
  have h1 : a + (2 ^ w - b) = (a - b) + 2 ^ w := by omega
  rw [h1, Nat.add_mod_right]
  exact Nat.mod_eq_of_lt (by omega)

/-! ### Growth -/

theorem growAll_frame (p : RPage) (ns : List Nat) :
    p.growAll ns = { p with fNElements := (p.growAll ns).fNElements } := by
  induction ns generalizing p with
  | nil => rfl
  | cons n ns ih =>
    simp only [RPage.growAll]
    rw [ih]
    rfl

theorem growAll_fNElements (p : RPage) (ns : List Nat)
    (h : p.fNElements + ns.sum < 2 ^ 32) :
    (p.growAll ns).fNElements = p.fNElements + ns.sum := by
  induction ns generalizing p with
  | nil => simp [RPage.growAll]
  | cons n ns ih =>
    simp only [List.sum_cons] at h
    have hn : (p.fNElements + n) % 2 ^ 32 = p.fNElements + n :=
      Nat.mod_eq_of_lt (by omega)
    simp only [RPage.growAll, List.sum_cons]
    rw [ih]
    · simp only [RPage.GrowUnchecked, hn]
      omega
    · simp only [RPage.GrowUnchecked, hn]
      omega

/-- Claim C1, as stated, fails: on the bound page with element size 65536 and capacity
65536, one call GrowUnchecked(65536) stays within the capacity, yet GetNBytes() is 0 and
not 65536 × 65536. -/
theorem growUnchecked_nbytes_wraps :
    [65536].sum ≤ (RPage.RPageBound 1 4096 8192 65536 65536).GetMaxElements ∧
    ((RPage.RPageBound 1 4096 8192 65536 65536).growAll [65536]).GetNElements = [65536].sum ∧
    ((RPage.RPageBound 1 4096 8192 65536 65536).growAll [65536]).GetNBytes = 0 ∧
    ((RPage.RPageBound 1 4096 8192 65536 65536).growAll [65536]).GetNBytes ≠
      (RPage.RPageBound 1 4096 8192 65536 65536).fElementSize * [65536].sum := by
  decide

/-- Claim C1 (amended): on a bound page, after the calls GrowUnchecked(n_1), ...,
GrowUnchecked(n_k) whose sum S is at most GetMaxElements(), GetNElements() is S and
GetNBytes() is elementSize × S reduced modulo 2^32, which is elementSize × S itself
whenever that product is below 2^32. -/
theorem growUnchecked_sum_count_bytes (columnId : Int)
    (buffer pageAllocator elementSize maxElements : Nat) (ns : List Nat)
    (hS : ns.sum ≤
      (RPage.RPageBound columnId buffer pageAllocator elementSize maxElements).GetMaxElements) :
    ((RPage.RPageBound columnId buffer pageAllocator elementSize maxElements).growAll
        ns).GetNElements = ns.sum ∧
    ((RPage.RPageBound columnId buffer pageAllocator elementSize maxElements).growAll
        ns).GetNBytes =
      ((RPage.RPageBound columnId buffer pageAllocator elementSize maxElements).fElementSize
        * ns.sum) % 2 ^ 32 ∧
    ((RPage.RPageBound columnId buffer pageAllocator elementSize maxElements).fElementSize
        * ns.sum < 2 ^ 32 →
      ((RPage.RPageBound columnId buffer pageAllocator elementSize maxElements).growAll
          ns).GetNBytes =
        (RPage.RPageBound columnId buffer pageAllocator elementSize maxElements).fElementSize
          * ns.sum) := by
  have hmax : maxElements % 2 ^ 32 < 2 ^ 32 := Nat.mod_lt _ (by norm_num)
  have hS2 : ns.sum ≤ maxElements % 2 ^ 32 := hS
  have hcount := growAll_fNElements
    (RPage.RPageBound columnId buffer pageAllocator elementSize maxElements) ns
    (by simp only [RPage.RPageBound]; omega)
  have hframe := growAll_frame
    (RPage.RPageBound columnId buffer pageAllocator elementSize maxElements) ns
  have hc2 : ((RPage.RPageBound columnId buffer pageAllocator elementSize maxElements).growAll
      ns).fNElements = ns.sum := by
    rw [hcount]; simp [RPage.RPageBound]
  have hsz : ((RPage.RPageBound columnId buffer pageAllocator elementSize maxElements).growAll
      ns).fElementSize =
      (RPage.RPageBound columnId buffer pageAllocator elementSize maxElements).fElementSize := by
    rw [hframe]
  refine ⟨hc2, ?_, ?_⟩
  · simp only [RPage.GetNBytes, hc2, hsz]
  · intro hlt
    simp only [RPage.GetNBytes, hc2, hsz]
    exact Nat.mod_eq_of_lt hlt

/-- A run of the amended claim C1: three calls on a page of capacity 1024. -/
theorem growUnchecked_sum_count_bytes_witness :
    [100, 200, 300].sum ≤ (RPage.RPageBound 1 4096 8192 8 1024).GetMaxElements ∧
    ((RPage.RPageBound 1 4096 8192 8 1024).growAll [100, 200, 300]).GetNElements =
      [100, 200, 300].sum ∧
    ((RPage.RPageBound 1 4096 8192 8 1024).growAll [100, 200, 300]).GetNBytes =
      ((RPage.RPageBound 1 4096 8192 8 1024).fElementSize * [100, 200, 300].sum) % 2 ^ 32 ∧
    ((RPage.RPageBound 1 4096 8192 8 1024).fElementSize * [100, 200, 300].sum < 2 ^ 32 →
      ((RPage.RPageBound 1 4096 8192 8 1024).growAll [100, 200, 300]).GetNBytes =
        (RPage.RPageBound 1 4096 8192 8 1024).fElementSize * [100, 200, 300].sum) :=
  ⟨by decide, growUnchecked_sum_count_bytes 1 4096 8192 8 1024 [100, 200, 300] (by decide)⟩


/-! ### Containment -/

/-- Claim C2, as stated, fails: with 64-bit indices, the page of two elements positioned at
2^64 − 2 covers the indices 2^64 − 2 and 2^64 − 1, yet Contains(2^64 − 2) is false, because
the upper bound fRangeFirst + fNElements wraps around to 0. -/
theorem contains_global_wraps :
    (((RPage.RPageBound 1 4096 8192 8 1024).GrowUnchecked 2).2.SetWindow
        (2 ^ 64 - 2) { fId := 3, fIndexOffset := 0 }).GetGlobalRangeFirst ≤ 2 ^ 64 - 2 ∧
    2 ^ 64 - 2 <
      (((RPage.RPageBound 1 4096 8192 8 1024).GrowUnchecked 2).2.SetWindow
        (2 ^ 64 - 2) { fId := 3, fIndexOffset := 0 }).GetGlobalRangeFirst +
      (((RPage.RPageBound 1 4096 8192 8 1024).GrowUnchecked 2).2.SetWindow
        (2 ^ 64 - 2) { fId := 3, fIndexOffset := 0 }).GetNElements ∧
    RPage.Contains root64
      (((RPage.RPageBound 1 4096 8192 8 1024).GrowUnchecked 2).2.SetWindow
        (2 ^ 64 - 2) { fId := 3, fIndexOffset := 0 }) (2 ^ 64 - 2) = false := by
  decide

/-- Claim C2 (amended): for every page whose sum globalRangeFirst + elementCount stays
below the range of NTupleSize_t (2^64 upstream), and every global index i, Contains(i) is
true if and only if globalRangeFirst ≤ i < globalRangeFirst + elementCount. -/
theorem contains_global_iff (E : Env) (p : RPage) (i : Nat)
    (hfit : p.GetGlobalRangeFirst + p.GetNElements < 2 ^ E.ntupleBits) :
    RPage.Contains E p i = true ↔
      p.GetGlobalRangeFirst ≤ i ∧ i < p.GetGlobalRangeFirst + p.GetNElements := by
  simp only [RPage.GetGlobalRangeFirst, RPage.GetNElements] at hfit ⊢
  have hn : toUnsigned E.ntupleBits p.fNElements = p.fNElements :=
    toUnsigned_of_lt (by omega)
  have hs : uadd E.ntupleBits p.fRangeFirst p.fNElements = p.fRangeFirst + p.fNElements :=
    uadd_of_lt hfit
  simp [RPage.Contains, hn, hs]

/-- A run of the amended claim C2: the page of 100 elements positioned at 50 contains 149. -/
theorem contains_global_iff_witness :
    (((RPage.RPageBound 1 4096 8192 8 1024).GrowUnchecked 100).2.SetWindow 50
        { fId := 3, fIndexOffset := 50 }).GetGlobalRangeFirst +
      (((RPage.RPageBound 1 4096 8192 8 1024).GrowUnchecked 100).2.SetWindow 50
        { fId := 3, fIndexOffset := 50 }).GetNElements < 2 ^ root64.ntupleBits ∧
    (RPage.Contains root64
        (((RPage.RPageBound 1 4096 8192 8 1024).GrowUnchecked 100).2.SetWindow 50
          { fId := 3, fIndexOffset := 50 }) 149 = true ↔
      (((RPage.RPageBound 1 4096 8192 8 1024).GrowUnchecked 100).2.SetWindow 50
          { fId := 3, fIndexOffset := 50 }).GetGlobalRangeFirst ≤ 149 ∧
      149 < (((RPage.RPageBound 1 4096 8192 8 1024).GrowUnchecked 100).2.SetWindow 50
          { fId := 3, fIndexOffset := 50 }).GetGlobalRangeFirst +
        (((RPage.RPageBound 1 4096 8192 8 1024).GrowUnchecked 100).2.SetWindow 50
          { fId := 3, fIndexOffset := 50 }).GetNElements) :=
  ⟨by decide, contains_global_iff root64 _ 149 (by decide)⟩

/-- Claim C3, as stated, fails at two pages of two elements stamped with cluster 3 (64-bit
types).  With window offset 1 above globalRangeFirst 0, the local index 0 lies in the
integer range [−1, 1), yet Contains is false: the difference wraps around.  With
globalRangeFirst 2^64 − 2 and offset 0, the local index 2^64 − 2 lies in the range, yet
Contains is false: the upper bound wraps around. -/
theorem contains_cluster_wraps :
    (((0 : Int) - 1 ≤ 0 ∧ (0 : Int) < 0 - 1 + 2) ∧
      RPage.ContainsCluster root64
        (((RPage.RPageBound 1 4096 8192 8 1024).GrowUnchecked 2).2.SetWindow 0
          { fId := 3, fIndexOffset := 1 })
        { fClusterId := 3, fIndex := 0 } = false) ∧
    ((2 ^ 64 - 2 - 0 ≤ 2 ^ 64 - 2 ∧ 2 ^ 64 - 2 < 2 ^ 64 - 2 - 0 + 2) ∧
      RPage.ContainsCluster root64
        (((RPage.RPageBound 1 4096 8192 8 1024).GrowUnchecked 2).2.SetWindow (2 ^ 64 - 2)
          { fId := 3, fIndexOffset := 0 })
        { fClusterId := 3, fIndex := 2 ^ 64 - 2 } = false) := by
  decide

/-- Claim C3 (amended): for every page whose stamped offset is at most globalRangeFirst and
whose sum globalRangeFirst − offset + elementCount stays below the range of
ClusterSize_t::ValueType (2^64 upstream), and every cluster index (c, j) whose cluster id c
equals the stamped cluster id, Contains(c, j) is true if and only if
globalRangeFirst − offset ≤ j < globalRangeFirst − offset + elementCount. -/
theorem contains_cluster_iff (E : Env) (p : RPage) (ci : RClusterIndex)
    (hid : ci.GetClusterId = p.GetClusterInfo.GetId)
    (hfirst : p.GetGlobalRangeFirst < 2 ^ E.ntupleBits)
    (hoff : p.GetClusterInfo.GetIndexOffset ≤ p.GetGlobalRangeFirst)
    (hfit : p.GetGlobalRangeFirst - p.GetClusterInfo.GetIndexOffset + p.GetNElements
      < 2 ^ E.clusterBits) :
    RPage.ContainsCluster E p ci = true ↔
      p.GetGlobalRangeFirst - p.GetClusterInfo.GetIndexOffset ≤ ci.GetIndex ∧
      ci.GetIndex <
        p.GetGlobalRangeFirst - p.GetClusterInfo.GetIndexOffset + p.GetNElements := by
  simp only [RPage.GetGlobalRangeFirst, RPage.GetNElements, RPage.GetClusterInfo,
    RClusterInfo.GetIndexOffset, RClusterInfo.GetId, RClusterIndex.GetClusterId,
    RClusterIndex.GetIndex] at *
  have hsub : usub E.ntupleBits p.fRangeFirst p.fClusterInfo.fIndexOffset =
      p.fRangeFirst - p.fClusterInfo.fIndexOffset := usub_of_le hfirst hoff
  have hcv : toUnsigned E.clusterBits (p.fRangeFirst - p.fClusterInfo.fIndexOffset) =
      p.fRangeFirst - p.fClusterInfo.fIndexOffset := toUnsigned_of_lt (by omega)
  have hadd : uadd E.clusterBits (p.fRangeFirst - p.fClusterInfo.fIndexOffset) p.fNElements =
      p.fRangeFirst - p.fClusterInfo.fIndexOffset + p.fNElements := uadd_of_lt hfit
  simp [RPage.ContainsCluster, RClusterInfo.GetIndexOffset, RClusterInfo.GetId,
    RClusterIndex.GetClusterId, RClusterIndex.GetIndex, hid, hsub, hcv, hadd]

/-- A run of the amended claim C3: the page of 100 elements at 50 in the cluster with id 3
and offset 50 contains the cluster index (3, 99). -/
theorem contains_cluster_iff_witness :
    RPage.ContainsCluster root64
        (((RPage.RPageBound 1 4096 8192 8 1024).GrowUnchecked 100).2.SetWindow 50
          { fId := 3, fIndexOffset := 50 })
        { fClusterId := 3, fIndex := 99 } = true ↔
      (((RPage.RPageBound 1 4096 8192 8 1024).GrowUnchecked 100).2.SetWindow 50
          { fId := 3, fIndexOffset := 50 }).GetGlobalRangeFirst -
        (((RPage.RPageBound 1 4096 8192 8 1024).GrowUnchecked 100).2.SetWindow 50
          { fId := 3, fIndexOffset := 50 }).GetClusterInfo.GetIndexOffset ≤
          (RClusterIndex.mk 3 99).GetIndex ∧
      (RClusterIndex.mk 3 99).GetIndex <
        (((RPage.RPageBound 1 4096 8192 8 1024).GrowUnchecked 100).2.SetWindow 50
          { fId := 3, fIndexOffset := 50 }).GetGlobalRangeFirst -
        (((RPage.RPageBound 1 4096 8192 8 1024).GrowUnchecked 100).2.SetWindow 50
          { fId := 3, fIndexOffset := 50 }).GetClusterInfo.GetIndexOffset +
        (((RPage.RPageBound 1 4096 8192 8 1024).GrowUnchecked 100).2.SetWindow 50
          { fId := 3, fIndexOffset := 50 }).GetNElements :=
  contains_cluster_iff root64 _ { fClusterId := 3, fIndex := 99 }
    (by decide) (by decide) (by decide) (by decide)

/-- Claim C4: for every page and every cluster index (c, j) whose cluster id c differs from
the stamped cluster id, Contains(c, j) is the value false, whatever the other members are. -/
theorem contains_cluster_mismatch (E : Env) (p : RPage) (ci : RClusterIndex)
    (hne : ci.GetClusterId ≠ p.GetClusterInfo.GetId) :
    RPage.ContainsCluster E p ci = false := by
  have h : p.fClusterInfo.GetId ≠ ci.GetClusterId := fun h => hne h.symm
  simp [RPage.ContainsCluster, h]

/-- A run of claim C4: the local index 10 lies in the window of the page, the cluster id 4
is not the stamped id 3. -/
theorem contains_cluster_mismatch_witness :
    (RClusterIndex.mk 4 10).GetClusterId ≠
      (((RPage.RPageBound 1 4096 8192 8 1024).GrowUnchecked 100).2.SetWindow 50
          { fId := 3, fIndexOffset := 50 }).GetClusterInfo.GetId ∧
    RPage.ContainsCluster root64
      (((RPage.RPageBound 1 4096 8192 8 1024).GrowUnchecked 100).2.SetWindow 50
          { fId := 3, fIndexOffset := 50 }) (RClusterIndex.mk 4 10) = false :=
  ⟨by decide, contains_cluster_mismatch root64 _ _ (by decide)⟩

/-! ### The capacity invariant -/

theorem withinCapacity_apply (p : RPage) (op : Op) (hp : WithinCapacity p)
    (hc : op.meetsContract p = true) : WithinCapacity (op.apply p) := by
  obtain ⟨h1, h2⟩ := hp
  cases op with
  | growUnchecked n =>
    simp only [Op.meetsContract, decide_eq_true_eq] at hc
    have hn : (p.fNElements + n) % 2 ^ 32 = p.fNElements + n :=
      Nat.mod_eq_of_lt (by omega)
    simp only [WithinCapacity, Op.apply, RPage.GrowUnchecked, hn]
    exact ⟨hc, h2⟩
  | setWindow r w => exact ⟨h1, h2⟩
  | reset r => exact ⟨Nat.zero_le _, h2⟩
  | resetCluster w => exact ⟨Nat.zero_le _, h2⟩

theorem withinCapacity_run (p : RPage) (ops : List Op) (hp : WithinCapacity p)
    (hc : contractOk p ops = true) : WithinCapacity (run p ops) := by
  induction ops generalizing p with
  | nil => exact hp
  | cons op ops ih =>
    simp only [contractOk, Bool.and_eq_true] at hc
    exact ih (op.apply p) (withinCapacity_apply p op hp hc.1) hc.2

theorem withinCapacity_bound (columnId : Int)
    (buffer pageAllocator elementSize maxElements : Nat) :
    WithinCapacity (RPage.RPageBound columnId buffer pageAllocator elementSize maxElements) :=
  ⟨Nat.zero_le _, Nat.mod_lt _ (by norm_num)⟩

theorem withinCapacity_constructed (E : Env) (p : RPage) (h : Constructed E p) :
    WithinCapacity p := by
  rcases h with h | ⟨c, b, a, e, m, h⟩ | ⟨c, e, h⟩
  · subst h
    exact ⟨Nat.le_refl _, by norm_num [RPage.RPageDefault]⟩
  · subst h
    exact withinCapacity_bound c b a e m
  · unfold RPage.MakePageZero at h
    split at h
    · cases h
    · cases h
      exact withinCapacity_bound _ _ _ _ _

/-- Claim C5: every page reached from a construction (default, bound or zero page) by a
sequence of SetWindow, Reset, ResetCluster and GrowUnchecked(n) calls, each GrowUnchecked
call meeting the contract elementCount + n ≤ maxElements, has elementCount ≤ maxElements. -/
theorem elementCount_le_maxElements (E : Env) (p : RPage) (ops : List Op)
    (hp : Constructed E p) (hc : contractOk p ops = true) :
    (run p ops).GetNElements ≤ (run p ops).GetMaxElements :=
  (withinCapacity_run p ops (withinCapacity_constructed E p hp) hc).1

/-- A run of claim C5: a bound page of capacity 1024 is filled, repositioned, reset and
filled to the brim. -/
theorem elementCount_le_maxElements_witness :
    Constructed root64 (RPage.RPageBound 1 4096 8192 8 1024) ∧
    contractOk (RPage.RPageBound 1 4096 8192 8 1024)
      [Op.growUnchecked 100, Op.setWindow 50 { fId := 3, fIndexOffset := 50 },
        Op.resetCluster { fId := 4, fIndexOffset := 150 }, Op.reset 150,
        Op.growUnchecked 1024] = true ∧
    (run (RPage.RPageBound 1 4096 8192 8 1024)
      [Op.growUnchecked 100, Op.setWindow 50 { fId := 3, fIndexOffset := 50 },
        Op.resetCluster { fId := 4, fIndexOffset := 150 }, Op.reset 150,
        Op.growUnchecked 1024]).GetNElements ≤
    (run (RPage.RPageBound 1 4096 8192 8 1024)
      [Op.growUnchecked 100, Op.setWindow 50 { fId := 3, fIndexOffset := 50 },
        Op.resetCluster { fId := 4, fIndexOffset := 150 }, Op.reset 150,
        Op.growUnchecked 1024]).GetMaxElements :=
  ⟨Or.inr (Or.inl ⟨1, 4096, 8192, 8, 1024, rfl⟩), by decide,
    elementCount_le_maxElements root64 _ _
      (Or.inr (Or.inl ⟨1, 4096, 8192, 8, 1024, rfl⟩)) (by decide)⟩

/-! ### Zero pages -/

theorem makePageZero_eq (E : Env) (columnId : Int) (e : Nat) (he : 1 ≤ e) :
    RPage.MakePageZero E columnId e =
      some (RPage.RPageBound columnId (RPage.GetPageZeroBuffer E) 0 e (kPageZeroSize / e)) := by
  have h : e ≠ 0 := by omega
  simp [RPage.MakePageZero, h]

/-- Claim C6: for every element size e ≥ 1, MakePageZero(columnId, e) returns a page with
GetMaxElements() == 65536 / e (integer division) and GetNElements() == 0. -/
theorem makePageZero_maxElements (E : Env) (columnId : Int) (e : Nat) (he : 1 ≤ e) :
    ∃ p, RPage.MakePageZero E columnId e = some p ∧
      p.GetMaxElements = 65536 / e ∧ p.GetNElements = 0 := by
  refine ⟨_, makePageZero_eq E columnId e he, ?_, rfl⟩
  have hle : 65536 / e ≤ 65536 := Nat.div_le_self _ _
  show (65536 / e) % 2 ^ 32 = 65536 / e
  exact Nat.mod_eq_of_lt (by omega)

/-- A run of claim C6: element size 12 gives capacity 5461, four bytes stay unused. -/
theorem makePageZero_maxElements_witness :
    ∃ p, RPage.MakePageZero root64 7 12 = some p ∧
      p.GetMaxElements = 65536 / 12 ∧ p.GetNElements = 0 :=
  makePageZero_maxElements root64 7 12 (by decide)

/-! ### Equality -/

/-- Claim C7: p == q holds if and only if the two pages wrap the same buffer address; the
result is the same for any two pages with these buffers, whatever their other members are;
and p != q is the negation of p == q. -/
theorem eq_iff_same_buffer (p q : RPage) :
    (p.eq q = true ↔ p.GetBuffer = q.GetBuffer) ∧
    (∀ (c1 c2 : Int) (a1 a2 s1 s2 n1 n2 m1 m2 r1 r2 : Nat) (w1 w2 : RClusterInfo),
      RPage.eq
        { fColumnId := c1, fBuffer := p.fBuffer, fPageAllocator := a1, fElementSize := s1,
          fNElements := n1, fMaxElements := m1, fRangeFirst := r1, fClusterInfo := w1 }
        { fColumnId := c2, fBuffer := q.fBuffer, fPageAllocator := a2, fElementSize := s2,
          fNElements := n2, fMaxElements := m2, fRangeFirst := r2, fClusterInfo := w2 }
        = p.eq q) ∧
    p.ne q = !(p.eq q) := by
  refine ⟨?_, ?_, rfl⟩
  · simp [RPage.eq, RPage.GetBuffer]
  · intros
    rfl

/-- Claim C8: for every two column ids c1, c2 and every element size e ≥ 1, the zero pages
MakePageZero(c1, e) and MakePageZero(c2, e) both wrap the shared zero buffer and compare
equal with operator==, while each carries its own column id. -/
theorem makePageZero_alias (E : Env) (c1 c2 : Int) (e : Nat) (he : 1 ≤ e) :
    ∃ p q, RPage.MakePageZero E c1 e = some p ∧ RPage.MakePageZero E c2 e = some q ∧
      p.GetBuffer = RPage.GetPageZeroBuffer E ∧ q.GetBuffer = RPage.GetPageZeroBuffer E ∧
      p.eq q = true ∧ p.ne q = false ∧ p.GetColumnId = c1 ∧ q.GetColumnId = c2 := by
  refine ⟨_, _, makePageZero_eq E c1 e he, makePageZero_eq E c2 e he, rfl, rfl, ?_, ?_,
    rfl, rfl⟩
  · simp [RPage.eq, RPage.RPageBound]
  · simp [RPage.ne, RPage.eq, RPage.RPageBound]

/-- A run of claim C8: zero pages of the columns 7 and 9 with element size 4. -/
theorem makePageZero_alias_witness :
    ∃ p q, RPage.MakePageZero root64 7 4 = some p ∧ RPage.MakePageZero root64 9 4 = some q ∧
      p.GetBuffer = RPage.GetPageZeroBuffer root64 ∧
      q.GetBuffer = RPage.GetPageZeroBuffer root64 ∧
      p.eq q = true ∧ p.ne q = false ∧ p.GetColumnId = 7 ∧ q.GetColumnId = 9 :=
  makePageZero_alias root64 7 9 4 (by decide)

/-! ### Repositioning -/

/-- Claim C9: SetWindow(r, w) sets globalRangeFirst to r and the cluster window to w and
leaves the buffer, the element count and GetNBytes() unchanged (as well as the column id,
the allocator, the element size and the capacity). -/
theorem setWindow_frame (p : RPage) (r : Nat) (w : RClusterInfo) :
    (p.SetWindow r w).GetGlobalRangeFirst = r ∧
    (p.SetWindow r w).GetClusterInfo = w ∧
    (p.SetWindow r w).GetBuffer = p.GetBuffer ∧
    (p.SetWindow r w).GetNElements = p.GetNElements ∧
    (p.SetWindow r w).GetNBytes = p.GetNBytes ∧
    (p.SetWindow r w).GetColumnId = p.GetColumnId ∧
    (p.SetWindow r w).fPageAllocator = p.fPageAllocator ∧
    (p.SetWindow r w).fElementSize = p.fElementSize ∧
    (p.SetWindow r w).GetMaxElements = p.GetMaxElements :=
  ⟨rfl, rfl, rfl, rfl, rfl, rfl, rfl, rfl, rfl⟩

/-- Claim C10: after Reset(r) the page has elementCount == 0, IsEmpty() is true,
GetNBytes() == 0 and GetGlobalRangeFirst() == r. -/
theorem reset_empties (p : RPage) (r : Nat) :
    (p.Reset r).GetNElements = 0 ∧
    (p.Reset r).IsEmpty = true ∧
    (p.Reset r).GetNBytes = 0 ∧
    (p.Reset r).GetGlobalRangeFirst = r := by
  refine ⟨rfl, ?_, ?_, rfl⟩
  · simp [RPage.IsEmpty, RPage.Reset]
  · simp [RPage.GetNBytes, RPage.Reset]

/-- Claim C11: after SetWindow(r, w1) followed by ResetCluster(w2), GetGlobalRangeFirst()
is still r, the element count is 0, and the stamped cluster id/offset pair is w2. -/
theorem setWindow_resetCluster (p : RPage) (r : Nat) (w1 w2 : RClusterInfo) :
    ((p.SetWindow r w1).ResetCluster w2).GetGlobalRangeFirst = r ∧
    ((p.SetWindow r w1).ResetCluster w2).GetNElements = 0 ∧
    ((p.SetWindow r w1).ResetCluster w2).IsEmpty = true ∧
    ((p.SetWindow r w1).ResetCluster w2).GetClusterInfo = w2 ∧
    ((p.SetWindow r w1).ResetCluster w2).GetClusterInfo.GetId = w2.GetId ∧
    ((p.SetWindow r w1).ResetCluster w2).GetClusterInfo.GetIndexOffset = w2.GetIndexOffset := by
  refine ⟨rfl, rfl, ?_, rfl, rfl, rfl⟩
  simp [RPage.IsEmpty, RPage.ResetCluster]

/-! ### Range getters -/

theorem two_pow_32_le {w : Nat} (h : 32 ≤ w) : 2 ^ 32 ≤ 2 ^ w :=
  Nat.pow_le_pow_right (by norm_num) h

/-- Claim C12, as stated, fails: with 64-bit indices, the page of two elements positioned at
2^64 − 2 has GetGlobalRangeLast() == 2^64 − 1 == globalRangeFirst + elementCount − 1, yet
Contains(GetGlobalRangeLast()) is false. -/
theorem contains_rangeLast_wraps :
    0 < (((RPage.RPageBound 1 4096 8192 8 1024).GrowUnchecked 2).2.SetWindow
        (2 ^ 64 - 2) { fId := 3, fIndexOffset := 0 }).GetNElements ∧
    RPage.GetGlobalRangeLast root64
      (((RPage.RPageBound 1 4096 8192 8 1024).GrowUnchecked 2).2.SetWindow
        (2 ^ 64 - 2) { fId := 3, fIndexOffset := 0 }) = 2 ^ 64 - 1 ∧
    RPage.Contains root64
      (((RPage.RPageBound 1 4096 8192 8 1024).GrowUnchecked 2).2.SetWindow
        (2 ^ 64 - 2) { fId := 3, fIndexOffset := 0 })
      (RPage.GetGlobalRangeLast root64
        (((RPage.RPageBound 1 4096 8192 8 1024).GrowUnchecked 2).2.SetWindow
          (2 ^ 64 - 2) { fId := 3, fIndexOffset := 0 })) = false := by
  decide

/-- Claim C12 (amended): for every page with elementCount > 0 whose sum
globalRangeFirst + elementCount stays below the range of NTupleSize_t (2^64 upstream),
GetGlobalRangeLast() == globalRangeFirst + elementCount − 1, so that
GetGlobalRangeFirst() ≤ GetGlobalRangeLast() and Contains(GetGlobalRangeLast()) is true. -/
theorem globalRangeLast_eq (E : Env) (p : RPage) (hpos : 0 < p.GetNElements)
    (hfit : p.GetGlobalRangeFirst + p.GetNElements < 2 ^ E.ntupleBits) :
    RPage.GetGlobalRangeLast E p = p.GetGlobalRangeFirst + p.GetNElements - 1 ∧
    p.GetGlobalRangeFirst ≤ RPage.GetGlobalRangeLast E p ∧
    RPage.Contains E p (RPage.GetGlobalRangeLast E p) = true := by
  simp only [RPage.GetGlobalRangeFirst, RPage.GetNElements] at hpos hfit ⊢
  have hn : toUnsigned E.ntupleBits p.fNElements = p.fNElements :=
    toUnsigned_of_lt (by omega)
  have hs : uadd E.ntupleBits p.fRangeFirst p.fNElements = p.fRangeFirst + p.fNElements :=
    uadd_of_lt hfit
  have hl : RPage.GetGlobalRangeLast E p = p.fRangeFirst + p.fNElements - 1 := by
    simp only [RPage.GetGlobalRangeLast, hn, hs]
    exact usub_of_le hfit (by omega)
  refine ⟨hl, by omega, ?_⟩
  simp only [RPage.Contains, hn, hs, hl, Bool.and_eq_true, decide_eq_true_eq]
  omega

/-- A run of the amended claim C12: the page of 100 elements positioned at 50. -/
theorem globalRangeLast_eq_witness :
    RPage.GetGlobalRangeLast root64
      (((RPage.RPageBound 1 4096 8192 8 1024).GrowUnchecked 100).2.SetWindow 50
        { fId := 3, fIndexOffset := 50 }) =
      (((RPage.RPageBound 1 4096 8192 8 1024).GrowUnchecked 100).2.SetWindow 50
        { fId := 3, fIndexOffset := 50 }).GetGlobalRangeFirst +
      (((RPage.RPageBound 1 4096 8192 8 1024).GrowUnchecked 100).2.SetWindow 50
        { fId := 3, fIndexOffset := 50 }).GetNElements - 1 ∧
    (((RPage.RPageBound 1 4096 8192 8 1024).GrowUnchecked 100).2.SetWindow 50
        { fId := 3, fIndexOffset := 50 }).GetGlobalRangeFirst ≤
      RPage.GetGlobalRangeLast root64
        (((RPage.RPageBound 1 4096 8192 8 1024).GrowUnchecked 100).2.SetWindow 50
          { fId := 3, fIndexOffset := 50 }) ∧
    RPage.Contains root64
      (((RPage.RPageBound 1 4096 8192 8 1024).GrowUnchecked 100).2.SetWindow 50
        { fId := 3, fIndexOffset := 50 })
      (RPage.GetGlobalRangeLast root64
        (((RPage.RPageBound 1 4096 8192 8 1024).GrowUnchecked 100).2.SetWindow 50
          { fId := 3, fIndexOffset := 50 })) = true :=
  globalRangeLast_eq root64 _ (by decide) (by decide)

theorem usub_cast (w a b : Nat) :
    ((usub w a b : Nat) : Int) = ((a : Int) - (b : Int)) % (2 : Int) ^ w := by
  have hM : 0 < 2 ^ w := Nat.two_pow_pos _
  have hlt : b % 2 ^ w < 2 ^ w := Nat.mod_lt _ hM
  have hdm : ((2 ^ w * (b / 2 ^ w) + b % 2 ^ w : Nat) : Int) = (b : Int) := by
    rw [Nat.div_add_mod]
  have hcast : ((a + (2 ^ w - b % 2 ^ w) : Nat) : Int) =
      ((a : Int) - (b : Int)) + (2 : Int) ^ w * (1 + ((b / 2 ^ w : Nat) : Int)) := by
    rw [Nat.cast_add, Nat.cast_sub hlt.le]
    push_cast at hdm ⊢
    linarith
  have hpow : ((2 ^ w : Nat) : Int) = (2 : Int) ^ w := by norm_cast
  unfold usub
  rw [Int.natCast_mod, hcast, hpow, Int.add_mul_emod_self_left]

/-- Claim C13: for every page positioned with SetWindow(r, (clusterId, offset)),
GetClusterRangeFirst() is the unsigned difference r − offset: the integer r − offset
reduced modulo the range of NTupleSize_t and then of ClusterSize_t::ValueType (one
reduction modulo 2^64 upstream, where ClusterSize_t::ValueType is as wide as
NTupleSize_t).  In particular, whenever offset ≤ r it is a non-negative value equal to the
mathematical difference r − offset, and whenever r < offset it is r − offset + 2^64. -/
theorem clusterRangeFirst_setWindow (E : Env) (p : RPage) (r clusterId offset : Nat) :
    ((RPage.GetClusterRangeFirst E
        (p.SetWindow r { fId := clusterId, fIndexOffset := offset }) : Nat) : Int) =
      (((r : Int) - (offset : Int)) % (2 : Int) ^ E.ntupleBits) % (2 : Int) ^ E.clusterBits ∧
    (E.ntupleBits ≤ E.clusterBits →
      ((RPage.GetClusterRangeFirst E
          (p.SetWindow r { fId := clusterId, fIndexOffset := offset }) : Nat) : Int) =
        ((r : Int) - (offset : Int)) % (2 : Int) ^ E.ntupleBits) ∧
    (E.ntupleBits ≤ E.clusterBits → r < 2 ^ E.ntupleBits → offset ≤ r →
      RPage.GetClusterRangeFirst E
          (p.SetWindow r { fId := clusterId, fIndexOffset := offset }) = r - offset ∧
      ((RPage.GetClusterRangeFirst E
          (p.SetWindow r { fId := clusterId, fIndexOffset := offset }) : Nat) : Int) =
        (r : Int) - (offset : Int)) ∧
    (E.ntupleBits ≤ E.clusterBits → offset < 2 ^ E.ntupleBits → r < offset →
      RPage.GetClusterRangeFirst E
          (p.SetWindow r { fId := clusterId, fIndexOffset := offset }) =
        r + 2 ^ E.ntupleBits - offset ∧
      ((RPage.GetClusterRangeFirst E
          (p.SetWindow r { fId := clusterId, fIndexOffset := offset }) : Nat) : Int) =
        (r : Int) - (offset : Int) + (2 : Int) ^ E.ntupleBits) := by
  have hdef : RPage.GetClusterRangeFirst E
      (p.SetWindow r { fId := clusterId, fIndexOffset := offset }) =
      toUnsigned E.clusterBits (usub E.ntupleBits r offset) := rfl
  have hgen : ((RPage.GetClusterRangeFirst E
      (p.SetWindow r { fId := clusterId, fIndexOffset := offset }) : Nat) : Int) =
      (((r : Int) - (offset : Int)) % (2 : Int) ^ E.ntupleBits) % (2 : Int) ^ E.clusterBits := by
    have hpow : ((2 ^ E.clusterBits : Nat) : Int) = (2 : Int) ^ E.clusterBits := by norm_cast
    rw [hdef]
    unfold toUnsigned
    rw [Int.natCast_mod, usub_cast, hpow]
  have hlow : ∀ (_ : E.ntupleBits ≤ E.clusterBits), usub E.ntupleBits r offset
      < 2 ^ E.clusterBits := by
    intro hwide
    have h1 : usub E.ntupleBits r offset < 2 ^ E.ntupleBits :=
      Nat.mod_lt _ (Nat.two_pow_pos _)
    have h2 : 2 ^ E.ntupleBits ≤ 2 ^ E.clusterBits :=
      Nat.pow_le_pow_right (by norm_num) hwide
    omega
  refine ⟨hgen, ?_, ?_, ?_⟩
  · intro hwide
    rw [hdef, toUnsigned_of_lt (hlow hwide), usub_cast]
  · intro hwide hr hoff
    have hsub : usub E.ntupleBits r offset = r - offset := usub_of_le hr hoff
    have h1 : RPage.GetClusterRangeFirst E
        (p.SetWindow r { fId := clusterId, fIndexOffset := offset }) = r - offset := by
      rw [hdef, toUnsigned_of_lt (hlow hwide), hsub]
    refine ⟨h1, ?_⟩
    rw [h1]
    omega
  · intro hwide ho hlt
    have hsub : usub E.ntupleBits r offset = r + 2 ^ E.ntupleBits - offset := by
      unfold usub
      rw [Nat.mod_eq_of_lt ho]
      have h1 : r + (2 ^ E.ntupleBits - offset) = r + 2 ^ E.ntupleBits - offset := by omega
      rw [h1]
      exact Nat.mod_eq_of_lt (by omega)
    have h1 : RPage.GetClusterRangeFirst E
        (p.SetWindow r { fId := clusterId, fIndexOffset := offset }) =
        r + 2 ^ E.ntupleBits - offset := by
      rw [hdef, toUnsigned_of_lt (hlow hwide), hsub]
    refine ⟨h1, ?_⟩
    rw [h1, Nat.cast_sub (by omega)]
    push_cast
    ring

/-- A run of claim C13 with 64-bit types: a page positioned at 1000 in the cluster with
offset 400 starts at the local index 600; positioned at 0 with offset 1 the difference
wraps around to 2^64 − 1. -/
theorem clusterRangeFirst_setWindow_witness :
    (RPage.GetClusterRangeFirst root64
        ((RPage.RPageBound 1 4096 8192 8 1024).SetWindow 1000
          { fId := 3, fIndexOffset := 400 }) = 1000 - 400 ∧
      ((RPage.GetClusterRangeFirst root64
        ((RPage.RPageBound 1 4096 8192 8 1024).SetWindow 1000
          { fId := 3, fIndexOffset := 400 }) : Nat) : Int) = (1000 : Int) - (400 : Int)) ∧
    (RPage.GetClusterRangeFirst root64
        ((RPage.RPageBound 1 4096 8192 8 1024).SetWindow 0
          { fId := 3, fIndexOffset := 1 }) = 0 + 2 ^ root64.ntupleBits - 1 ∧
      ((RPage.GetClusterRangeFirst root64
        ((RPage.RPageBound 1 4096 8192 8 1024).SetWindow 0
          { fId := 3, fIndexOffset := 1 }) : Nat) : Int) =
        (0 : Int) - (1 : Int) + (2 : Int) ^ root64.ntupleBits) ∧
    RPage.GetClusterRangeFirst root64
        ((RPage.RPageBound 1 4096 8192 8 1024).SetWindow 0
          { fId := 3, fIndexOffset := 1 }) = 2 ^ 64 - 1 :=
  ⟨(clusterRangeFirst_setWindow root64 _ 1000 3 400).2.2.1
      (by decide) (by decide) (by decide),
    (clusterRangeFirst_setWindow root64 _ 0 3 1).2.2.2 (by decide) (by decide) (by decide),
    by decide⟩

/-- Claim C14: for the page constructed with element size 8 and capacity 1024, after
GrowUnchecked(100) and then SetWindow(50, cluster window (id 3, offset 50)),
GetGlobalRangeFirst() == 50, GetGlobalRangeLast() == 149, GetClusterRangeFirst() == 0 and
GetClusterRangeLast() == 99, whatever the column id, the buffer and the allocator are. -/
theorem scenario_ranges (E : Env) (columnId : Int) (buffer pageAllocator : Nat) :
    (((RPage.RPageBound columnId buffer pageAllocator 8 1024).GrowUnchecked 100).2.SetWindow 50
        { fId := 3, fIndexOffset := 50 }).GetGlobalRangeFirst = 50 ∧
    RPage.GetGlobalRangeLast E
      (((RPage.RPageBound columnId buffer pageAllocator 8 1024).GrowUnchecked 100).2.SetWindow 50
        { fId := 3, fIndexOffset := 50 }) = 149 ∧
    RPage.GetClusterRangeFirst E
      (((RPage.RPageBound columnId buffer pageAllocator 8 1024).GrowUnchecked 100).2.SetWindow 50
        { fId := 3, fIndexOffset := 50 }) = 0 ∧
    RPage.GetClusterRangeLast E
      (((RPage.RPageBound columnId buffer pageAllocator 8 1024).GrowUnchecked 100).2.SetWindow 50
        { fId := 3, fIndexOffset := 50 }) = 99 := by
  have hN : 2 ^ 32 ≤ 2 ^ E.ntupleBits := two_pow_32_le E.ntupleBits_ge
  have hC : 2 ^ 32 ≤ 2 ^ E.clusterBits := two_pow_32_le E.clusterBits_ge
  have hM : 2 ^ 32 ≤ 2 ^ (max E.clusterBits E.ntupleBits) :=
    two_pow_32_le (le_trans E.clusterBits_ge (le_max_left _ _))
  have h32 : (2 : Nat) ^ 32 = 4294967296 := by norm_num
  have hcnt : ((RPage.RPageBound columnId buffer pageAllocator 8 1024).GrowUnchecked 100).2.fNElements
      = 100 := by
    simp [RPage.GrowUnchecked, RPage.RPageBound]
  have hn : toUnsigned E.ntupleBits 100 = 100 := toUnsigned_of_lt (by omega)
  have hcrf : toUnsigned E.clusterBits (usub E.ntupleBits 50 50) = 0 := by
    rw [usub_of_le (by omega) (le_refl 50)]
    exact toUnsigned_of_lt (by omega)
  refine ⟨rfl, ?_, ?_, ?_⟩
  · simp only [RPage.GetGlobalRangeLast, RPage.SetWindow, hcnt, hn]
    rw [uadd_of_lt (by omega), usub_of_le (by omega) (by omega)]
  · simp only [RPage.GetClusterRangeFirst, RPage.SetWindow, RClusterInfo.GetIndexOffset, hcrf]
  · simp only [RPage.GetClusterRangeLast, RPage.GetClusterRangeFirst, RPage.SetWindow,
      RClusterInfo.GetIndexOffset, hcrf, hcnt, hn]
    rw [uadd_of_lt (by omega), usub_of_le (by omega) (by omega)]
    exact toUnsigned_of_lt (by omega)

/-! ### The pointer returned by GrowUnchecked -/

/-- Claim C15, as stated, fails twice.  On the page with element size 65536 and capacity
70000 the calls GrowUnchecked(65536) and GrowUnchecked(1) both stay within the capacity
and both return the buffer address itself: the second offset is 0, not 65536 × 65536, so
the two regions overlap.  On the page with element size 1 that holds 2^32 − 1 elements,
GrowUnchecked(1) leaves the element count 0, not 2^32. -/
theorem growUnchecked_pointer_wraps :
    (((RPage.RPageBound 1 4096 8192 65536 70000).GrowUnchecked 65536).1 = 4096 ∧
      (((RPage.RPageBound 1 4096 8192 65536 70000).GrowUnchecked 65536).2.GrowUnchecked 1).1
        = 4096 ∧
      (((RPage.RPageBound 1 4096 8192 65536 70000).GrowUnchecked 65536).2.GrowUnchecked 1).1
        ≠ (RPage.RPageBound 1 4096 8192 65536 70000).GetBuffer +
          (RPage.RPageBound 1 4096 8192 65536 70000).fElementSize *
            ((RPage.RPageBound 1 4096 8192 65536 70000).GrowUnchecked 65536).2.GetNElements ∧
      (((RPage.RPageBound 1 4096 8192 65536 70000).GrowUnchecked 65536).2.GrowUnchecked
          1).2.GetNElements ≤ (RPage.RPageBound 1 4096 8192 65536 70000).GetMaxElements) ∧
    (((RPage.RPageBound 1 4096 8192 1 (2 ^ 32 - 1)).GrowUnchecked (2 ^ 32 - 1)).2.GetNElements
        = 2 ^ 32 - 1 ∧
      (((RPage.RPageBound 1 4096 8192 1 (2 ^ 32 - 1)).GrowUnchecked
          (2 ^ 32 - 1)).2.GrowUnchecked 1).2.GetNElements = 0) := by
  decide

/-- Claim C15 (amended): GrowUnchecked(n1) returns the buffer address advanced by
elementSize × elementCount reduced modulo 2^32 and sets the element count to
(elementCount + n1) modulo 2^32.  When elementSize × elementCount < 2^32 the returned
address is exactly buffer + elementSize × elementCount; when elementCount + n1 < 2^32 the
element count advances by exactly n1; and when moreover
elementSize × (elementCount + n1) < 2^32, a following GrowUnchecked(n2) returns the address
exactly elementSize × n1 above the first one. -/
theorem growUnchecked_pointer (p : RPage) (n1 n2 : Nat) :
    (p.GrowUnchecked n1).1 = p.GetBuffer + (p.fElementSize * p.GetNElements) % 2 ^ 32 ∧
    (p.GrowUnchecked n1).2.GetNElements = (p.GetNElements + n1) % 2 ^ 32 ∧
    (p.fElementSize * p.GetNElements < 2 ^ 32 →
      (p.GrowUnchecked n1).1 = p.GetBuffer + p.fElementSize * p.GetNElements) ∧
    (p.GetNElements + n1 < 2 ^ 32 →
      (p.GrowUnchecked n1).2.GetNElements = p.GetNElements + n1) ∧
    (p.GetNElements + n1 < 2 ^ 32 → p.fElementSize * (p.GetNElements + n1) < 2 ^ 32 →
      ((p.GrowUnchecked n1).2.GrowUnchecked n2).1 =
        (p.GrowUnchecked n1).1 + p.fElementSize * n1) := by
  refine ⟨rfl, rfl, ?_, ?_, ?_⟩
  · intro h
    simp only [RPage.GrowUnchecked, RPage.GetNBytes, RPage.GetBuffer, RPage.GetNElements] at h ⊢
    rw [Nat.mod_eq_of_lt h]
  · intro h
    simp only [RPage.GrowUnchecked, RPage.GetNElements] at h ⊢
    exact Nat.mod_eq_of_lt h
  · intro h1 h2
    simp only [RPage.GrowUnchecked, RPage.GetNBytes, RPage.GetNElements] at h1 h2 ⊢
    have hm : p.fElementSize * (p.fNElements + n1) =
        p.fElementSize * p.fNElements + p.fElementSize * n1 := Nat.mul_add _ _ _
    rw [Nat.mod_eq_of_lt h1, Nat.mod_eq_of_lt h2, Nat.mod_eq_of_lt (by omega)]
    omega

/-- A run of the amended claim C15: on a page of 8-byte elements at address 4096,
GrowUnchecked(100) returns 4096 and the following GrowUnchecked(50) returns 4896. -/
theorem growUnchecked_pointer_witness :
    ((RPage.RPageBound 1 4096 8192 8 1024).GrowUnchecked 100).1 = 4096 ∧
    (((RPage.RPageBound 1 4096 8192 8 1024).GrowUnchecked 100).2.GrowUnchecked 50).1 =
      ((RPage.RPageBound 1 4096 8192 8 1024).GrowUnchecked 100).1 +
        (RPage.RPageBound 1 4096 8192 8 1024).fElementSize * 100 ∧
    (((RPage.RPageBound 1 4096 8192 8 1024).GrowUnchecked 100).2.GrowUnchecked 50).1 = 4896 :=
  ⟨by decide,
    (growUnchecked_pointer (RPage.RPageBound 1 4096 8192 8 1024) 100 50).2.2.2.2
      (by decide) (by decide),
    by decide⟩

/-! ### Construction, fixed members and moves -/

/-- Claim C16, as stated, fails: the sizes are ClusterSize_t::ValueType arguments (64 bits
upstream) stored in std::uint32_t members.  Built with element size 2^32 + 8 and capacity
2^32, the page holds element size 8 and reports GetMaxElements() == 0. -/
theorem constructor_truncates :
    2 ^ 32 + 8 < 2 ^ root64.clusterBits ∧ 2 ^ 32 < 2 ^ root64.clusterBits ∧
    (RPage.RPageBound 1 4096 8192 (2 ^ 32 + 8) (2 ^ 32)).fElementSize = 8 ∧
    (RPage.RPageBound 1 4096 8192 (2 ^ 32 + 8) (2 ^ 32)).fElementSize ≠ 2 ^ 32 + 8 ∧
    (RPage.RPageBound 1 4096 8192 (2 ^ 32 + 8) (2 ^ 32)).GetMaxElements = 0 ∧
    (RPage.RPageBound 1 4096 8192 (2 ^ 32 + 8) (2 ^ 32)).GetMaxElements ≠ 2 ^ 32 := by
  decide

/-- Claim C16 (amended): for every columnId, buffer and allocator and every elementSize and
maxElements below 2^32, the page built by the binding constructor reports exactly those
values, has elementCount == 0 (IsEmpty), globalRangeFirst == 0 and the default cluster
window (id 0, offset 0); it IsValid() iff columnId is not the invalid sentinel and IsNull()
iff buffer is null. -/
theorem constructor_reports (E : Env) (columnId : Int)
    (buffer pageAllocator elementSize maxElements : Nat)
    (hsize : elementSize < 2 ^ 32) (hmax : maxElements < 2 ^ 32) :
    (RPage.RPageBound columnId buffer pageAllocator elementSize maxElements).GetColumnId
      = columnId ∧
    (RPage.RPageBound columnId buffer pageAllocator elementSize maxElements).GetBuffer
      = buffer ∧
    (RPage.RPageBound columnId buffer pageAllocator elementSize maxElements).fPageAllocator
      = pageAllocator ∧
    (RPage.RPageBound columnId buffer pageAllocator elementSize maxElements).fElementSize
      = elementSize ∧
    (RPage.RPageBound columnId buffer pageAllocator elementSize maxElements).GetMaxElements
      = maxElements ∧
    (RPage.RPageBound columnId buffer pageAllocator elementSize maxElements).GetNElements = 0 ∧
    (RPage.RPageBound columnId buffer pageAllocator elementSize maxElements).IsEmpty = true ∧
    (RPage.RPageBound columnId buffer pageAllocator elementSize
      maxElements).GetGlobalRangeFirst = 0 ∧
    (RPage.RPageBound columnId buffer pageAllocator elementSize maxElements).GetClusterInfo
      = { fId := 0, fIndexOffset := 0 } ∧
    ((RPage.RPageBound columnId buffer pageAllocator elementSize maxElements).IsValid E = true
      ↔ columnId ≠ E.kInvalidColumnId) ∧
    ((RPage.RPageBound columnId buffer pageAllocator elementSize maxElements).IsNull = true
      ↔ buffer = 0) := by
  refine ⟨rfl, rfl, rfl, Nat.mod_eq_of_lt hsize, Nat.mod_eq_of_lt hmax, rfl, ?_, rfl, rfl,
    ?_, ?_⟩
  · simp [RPage.IsEmpty, RPage.RPageBound]
  · simp [RPage.IsValid, RPage.RPageBound]
  · simp [RPage.IsNull, RPage.RPageBound]

/-- A run of the amended claim C16: the page of column 1 with 8-byte elements and capacity
1024 is valid and not null. -/
theorem constructor_reports_witness :
    (RPage.RPageBound 1 4096 8192 8 1024).fElementSize = 8 ∧
    (RPage.RPageBound 1 4096 8192 8 1024).GetMaxElements = 1024 ∧
    (RPage.RPageBound 1 4096 8192 8 1024).IsValid root64 = true ∧
    (RPage.RPageBound 1 4096 8192 8 1024).IsNull = false :=
  ⟨(constructor_reports root64 1 4096 8192 8 1024 (by decide) (by decide)).2.2.2.1,
    (constructor_reports root64 1 4096 8192 8 1024 (by decide) (by decide)).2.2.2.2.1,
    by decide, by decide⟩

theorem fixedMembers_apply (p : RPage) (op : Op) :
    fixedMembers (op.apply p) = fixedMembers p := by
  cases op <;> rfl

theorem fixedMembers_run (p : RPage) (ops : List Op) :
    fixedMembers (run p ops) = fixedMembers p := by
  induction ops generalizing p with
  | nil => rfl
  | cons op ops ih =>
    show fixedMembers (run (op.apply p) ops) = fixedMembers p
    rw [ih, fixedMembers_apply]

/-- Claim C17: none of GrowUnchecked, SetWindow, Reset and ResetCluster changes columnId,
the buffer address, the allocator, elementSize or maxElements, for every page and every
argument; hence no sequence of such calls does. -/
theorem fixed_after_construction (p : RPage) (n r : Nat) (w : RClusterInfo) (ops : List Op) :
    fixedMembers (p.GrowUnchecked n).2 = fixedMembers p ∧
    fixedMembers (p.SetWindow r w) = fixedMembers p ∧
    fixedMembers (p.Reset r) = fixedMembers p ∧
    fixedMembers (p.ResetCluster w) = fixedMembers p ∧
    fixedMembers (run p ops) = fixedMembers p ∧
    (run p ops).fElementSize = p.fElementSize ∧
    (run p ops).GetMaxElements = p.GetMaxElements := by
  have h := fixedMembers_run p ops
  refine ⟨rfl, rfl, rfl, rfl, h, ?_, ?_⟩
  · simp only [fixedMembers, Prod.mk.injEq] at h
    exact h.2.2.2.1
  · simp only [fixedMembers, Prod.mk.injEq] at h
    exact h.2.2.2.2

/-- Claim C18: the page move-constructed from p has the column id, buffer, allocator,
element size, element count, capacity, globalRangeFirst and cluster window of p, and
afterwards p has no allocator, so the two pages are never both bound to an allocator. -/
theorem move_construction (p : RPage) :
    (RPage.RPageMove p).1.GetColumnId = p.GetColumnId ∧
    (RPage.RPageMove p).1.GetBuffer = p.GetBuffer ∧
    (RPage.RPageMove p).1.fPageAllocator = p.fPageAllocator ∧
    (RPage.RPageMove p).1.fElementSize = p.fElementSize ∧
    (RPage.RPageMove p).1.GetNElements = p.GetNElements ∧
    (RPage.RPageMove p).1.GetMaxElements = p.GetMaxElements ∧
    (RPage.RPageMove p).1.GetGlobalRangeFirst = p.GetGlobalRangeFirst ∧
    (RPage.RPageMove p).1.GetClusterInfo = p.GetClusterInfo ∧
    (RPage.RPageMove p).2.fPageAllocator = 0 ∧
    ¬ ((RPage.RPageMove p).1.fPageAllocator ≠ 0 ∧ (RPage.RPageMove p).2.fPageAllocator ≠ 0) := by
  refine ⟨rfl, rfl, rfl, rfl, rfl, rfl, rfl, rfl, rfl, ?_⟩
  intro h
  exact h.2 rfl

/-! ### Zero pages under the mutating calls -/

/-- Claim C19: for every columnId and element size e ≥ 1, the page returned by
MakePageZero(columnId, e) is backed by the shared zero-page buffer (IsPageZero() is true),
carries columnId and has a null allocator, so returning it to an allocator is a no-op;
every sequence of GrowUnchecked, SetWindow, Reset and ResetCluster calls keeps IsPageZero()
true and the allocator null. -/
theorem zeroPage_unbound (E : Env) (columnId : Int) (e : Nat) (ops : List Op) (he : 1 ≤ e) :
    ∃ p, RPage.MakePageZero E columnId e = some p ∧
      p.IsPageZero E = true ∧ p.GetColumnId = columnId ∧ p.fPageAllocator = 0 ∧
      p.ReleaseBuffer E = false ∧
      (run p ops).IsPageZero E = true ∧ (run p ops).fPageAllocator = 0 ∧
      (run p ops).ReleaseBuffer E = false := by
  refine ⟨_, makePageZero_eq E columnId e he, ?_, rfl, rfl, ?_, ?_⟩
  · simp [RPage.IsPageZero, RPage.RPageBound]
  · simp [RPage.ReleaseBuffer, RPage.RPageBound]
  · have h := fixedMembers_run
      (RPage.RPageBound columnId (RPage.GetPageZeroBuffer E) 0 e (kPageZeroSize / e)) ops
    simp only [fixedMembers, Prod.mk.injEq] at h
    obtain ⟨-, hb, ha, -, -⟩ := h
    have hb2 : (run (RPage.RPageBound columnId (RPage.GetPageZeroBuffer E) 0 e
        (kPageZeroSize / e)) ops).fBuffer = RPage.GetPageZeroBuffer E := hb
    have ha2 : (run (RPage.RPageBound columnId (RPage.GetPageZeroBuffer E) 0 e
        (kPageZeroSize / e)) ops).fPageAllocator = 0 := ha
    refine ⟨?_, ha2, ?_⟩
    · simp [RPage.IsPageZero, hb2]
    · simp [RPage.ReleaseBuffer, ha2]

/-- A run of claim C19: the zero page of column 7 with 4-byte elements is grown,
positioned and reset. -/
theorem zeroPage_unbound_witness :
    ∃ p, RPage.MakePageZero root64 7 4 = some p ∧
      p.IsPageZero root64 = true ∧ p.GetColumnId = 7 ∧ p.fPageAllocator = 0 ∧
      p.ReleaseBuffer root64 = false ∧
      (run p [Op.growUnchecked 100, Op.setWindow 50 { fId := 3, fIndexOffset := 50 },
        Op.reset 150, Op.resetCluster { fId := 4, fIndexOffset := 150 }]).IsPageZero root64
        = true ∧
      (run p [Op.growUnchecked 100, Op.setWindow 50 { fId := 3, fIndexOffset := 50 },
        Op.reset 150, Op.resetCluster { fId := 4, fIndexOffset := 150 }]).fPageAllocator = 0 ∧
      (run p [Op.growUnchecked 100, Op.setWindow 50 { fId := 3, fIndexOffset := 50 },
        Op.reset 150, Op.resetCluster { fId := 4, fIndexOffset := 150 }]).ReleaseBuffer root64
        = false :=
  zeroPage_unbound root64 7 4 _ (by decide)

/-! ### Reference counting -/

theorem cloneN_eq (n : Nat) (s : RPageRef) :
    RPageRef.CloneN n s = { s with fRefCount := s.fRefCount + n } := by
  induction n generalizing s with
  | zero => rfl
  | succ n ih =>
    simp only [RPageRef.CloneN]
    rw [ih]
    simp only [RPageRef.Clone, RPageRef.mk.injEq, true_and, and_true]
    omega

theorem drop_of_many (E : Env) (s : RPageRef) (h : 1 < s.fRefCount) :
    s.Drop E = { s with fRefCount := s.fRefCount - 1 } := by
  have h1 : s.fRefCount ≠ 0 := by omega
  have h2 : s.fRefCount - 1 ≠ 0 := by omega
  simp [RPageRef.Drop, h1, h2]

theorem drop_of_last (E : Env) (s : RPageRef) (h : s.fRefCount = 1) :
    s.Drop E = { s with fRefCount := 0,
                        fNDeletePage :=
                          s.fNDeletePage + (if s.fPage.ReleaseBuffer E then 1 else 0) } := by
  simp [RPageRef.Drop, h]

theorem dropN_of_lt (E : Env) (k : Nat) (s : RPageRef) (h : k < s.fRefCount) :
    RPageRef.DropN E k s = { s with fRefCount := s.fRefCount - k } := by
  induction k generalizing s with
  | zero => rfl
  | succ k ih =>
    simp only [RPageRef.DropN]
    rw [drop_of_many E s (by omega), ih _ (by simp only; omega)]
    simp only [RPageRef.mk.injEq, true_and, and_true]
    omega

theorem dropN_succ (E : Env) (k : Nat) (s : RPageRef) :
    RPageRef.DropN E (k + 1) s = (RPageRef.DropN E k s).Drop E := by
  induction k generalizing s with
  | zero => rfl
  | succ k ih =>
    show RPageRef.DropN E (k + 1) (s.Drop E) = (RPageRef.DropN E (k + 1) s).Drop E
    rw [ih]
    rfl

/-- Claim C20: for every N ≥ 0 and every page bound to an allocator (not a zero page),
cloning its PageRef N times and then dropping all N + 1 references returns the page to its
allocator exactly once, and dropping k < N + 1 references leaves N + 1 − k references and
never returns it. -/
theorem pageRef_released_once (E : Env) (page : RPage) (N : Nat)
    (hbound : page.fPageAllocator ≠ 0) (hzero : page.IsPageZero E = false) :
    (RPageRef.DropN E (N + 1) (RPageRef.CloneN N (RPageRef.Acquire page))).fNDeletePage = 1 ∧
    (RPageRef.DropN E (N + 1) (RPageRef.CloneN N (RPageRef.Acquire page))).fRefCount = 0 ∧
    ∀ k, k < N + 1 →
      (RPageRef.DropN E k (RPageRef.CloneN N (RPageRef.Acquire page))).fNDeletePage = 0 ∧
      (RPageRef.DropN E k (RPageRef.CloneN N (RPageRef.Acquire page))).fRefCount
        = N + 1 - k := by
  have hrel : page.ReleaseBuffer E = true := by
    simp [RPage.ReleaseBuffer, hbound, hzero]
  have hclone : RPageRef.CloneN N (RPageRef.Acquire page) =
      { fPage := page, fRefCount := 1 + N, fNDeletePage := 0 } := by
    rw [cloneN_eq]
    rfl
  have hfew : ∀ k, k < N + 1 →
      RPageRef.DropN E k (RPageRef.CloneN N (RPageRef.Acquire page)) =
        { fPage := page, fRefCount := 1 + N - k, fNDeletePage := 0 } := by
    intro k hk
    rw [hclone, dropN_of_lt E k _ (by simp only; omega)]
  have hall : RPageRef.DropN E (N + 1) (RPageRef.CloneN N (RPageRef.Acquire page)) =
      { fPage := page, fRefCount := 0, fNDeletePage := 1 } := by
    rw [dropN_succ, hfew N (by omega), drop_of_last E _ (by simp only; omega)]
    simp [hrel]
  refine ⟨by rw [hall], by rw [hall], ?_⟩
  intro k hk
  rw [hfew k hk]
  exact ⟨rfl, by simp only; omega⟩

/-- A run of claim C20: three clones of the handle of a bound page, four drops. -/
theorem pageRef_released_once_witness :
    (RPageRef.DropN root64 4
      (RPageRef.CloneN 3 (RPageRef.Acquire (RPage.RPageBound 1 4096 8192 8 1024)))).fNDeletePage
      = 1 ∧
    (RPageRef.DropN root64 3
      (RPageRef.CloneN 3 (RPageRef.Acquire (RPage.RPageBound 1 4096 8192 8 1024)))).fNDeletePage
      = 0 :=
  ⟨(pageRef_released_once root64 (RPage.RPageBound 1 4096 8192 8 1024) 3
      (by decide) (by decide)).1,
    ((pageRef_released_once root64 (RPage.RPageBound 1 4096 8192 8 1024) 3
      (by decide) (by decide)).2.2 3 (by decide)).1⟩

/-! ### Growth beyond the capacity -/

/-- Claim C23: GrowUnchecked checks no bound and clamps nothing: the element count after
the call is (old count + n) modulo 2^32 whatever the capacity is, the capacity stays as it
was, and whenever old count + n exceeds the capacity (and is below 2^32) the new count
exceeds the capacity. -/
theorem growUnchecked_no_clamp (p : RPage) (n m : Nat) :
    (p.GrowUnchecked n).2.GetNElements = (p.GetNElements + n) % 2 ^ 32 ∧
    (RPage.GrowUnchecked { p with fMaxElements := m } n).2.GetNElements =
      (p.GrowUnchecked n).2.GetNElements ∧
    (p.GrowUnchecked n).2.GetMaxElements = p.GetMaxElements ∧
    (p.GetMaxElements < p.GetNElements + n → p.GetNElements + n < 2 ^ 32 →
      (p.GrowUnchecked n).2.GetMaxElements < (p.GrowUnchecked n).2.GetNElements) := by
  refine ⟨rfl, rfl, rfl, ?_⟩
  intro hover hlt
  simp only [RPage.GrowUnchecked, RPage.GetNElements, RPage.GetMaxElements] at hover hlt ⊢
  rw [Nat.mod_eq_of_lt hlt]
  exact hover

/-- A run of claim C23 on a zero page: with 4-byte elements the capacity is 16384, and
GrowUnchecked(20000) leaves 20000 elements. -/
theorem growUnchecked_no_clamp_witness :
    RPage.MakePageZero root64 7 4 =
      some (RPage.RPageBound 7 (RPage.GetPageZeroBuffer root64) 0 4 16384) ∧
    ((RPage.RPageBound 7 (RPage.GetPageZeroBuffer root64) 0 4 16384).GrowUnchecked
        20000).2.GetMaxElements <
      ((RPage.RPageBound 7 (RPage.GetPageZeroBuffer root64) 0 4 16384).GrowUnchecked
        20000).2.GetNElements :=
  ⟨by decide,
    (growUnchecked_no_clamp (RPage.RPageBound 7 (RPage.GetPageZeroBuffer root64) 0 4 16384)
      20000 0).2.2.2 (by decide) (by decide)⟩

/-! ### The source of a move -/

/-- Claim C24, as stated, fails: after the page with buffer 4096 is moved from, it still
holds the buffer (IsNull() is false, GetBuffer() is 4096) and compares equal to the new
page; only its allocator is null. -/
theorem move_keeps_source_buffer :
    (RPage.RPageBound 1 4096 8192 8 1024).GetBuffer ≠ 0 ∧
    (RPage.RPageMove (RPage.RPageBound 1 4096 8192 8 1024)).2.IsNull = false ∧
    (RPage.RPageMove (RPage.RPageBound 1 4096 8192 8 1024)).2.GetBuffer = 4096 ∧
    (RPage.RPageMove (RPage.RPageBound 1 4096 8192 8 1024)).2.fPageAllocator = 0 ∧
    (RPage.RPageMove (RPage.RPageBound 1 4096 8192 8 1024)).2.eq
      (RPage.RPageMove (RPage.RPageBound 1 4096 8192 8 1024)).1 = true := by
  decide

/-- Claim C24 (amended): a move nulls out the allocator of its source and nothing else:
for every page p, after a new page q is move-constructed from p, p holds no allocator but
still holds the buffer (GetBuffer() and IsNull() are as before), so p still compares equal
to q. -/
theorem move_source (p : RPage) :
    (RPage.RPageMove p).2.fPageAllocator = 0 ∧
    (RPage.RPageMove p).2.GetBuffer = p.GetBuffer ∧
    (RPage.RPageMove p).2.IsNull = p.IsNull ∧
    (RPage.RPageMove p).2.eq (RPage.RPageMove p).1 = true ∧
    (RPage.RPageMove p).2.ne (RPage.RPageMove p).1 = false ∧
    (RPage.RPageMove p).2 = { p with fPageAllocator := 0 } := by
  refine ⟨rfl, rfl, rfl, ?_, ?_, rfl⟩
  · simp [RPage.eq, RPage.RPageMove]
  · simp [RPage.ne, RPage.eq, RPage.RPageMove]

/-! ### The capacity of a zero page -/

/-- Claim C25: for every element size e ≥ 1 the page from MakePageZero(columnId, e)
satisfies e × maxElements ≤ 65536 with 65536 − e × maxElements < e, and maxElements == 0
when e > 65536; after every sequence of calls in which each GrowUnchecked keeps
elementCount ≤ maxElements, GetNBytes() ≤ 65536. -/
theorem zeroPage_capacity_fits (E : Env) (columnId : Int) (e : Nat) (ops : List Op)
    (he : 1 ≤ e) :
    ∃ p, RPage.MakePageZero E columnId e = some p ∧
      e * p.GetMaxElements ≤ 65536 ∧
      65536 - e * p.GetMaxElements < e ∧
      (65536 < e → p.GetMaxElements = 0) ∧
      (contractOk p ops = true → (run p ops).GetNBytes ≤ 65536) := by
  have hle : 65536 / e ≤ 65536 := Nat.div_le_self _ _
  have hmax : (RPage.RPageBound columnId (RPage.GetPageZeroBuffer E) 0 e
      (kPageZeroSize / e)).fMaxElements = 65536 / e := by
    show (65536 / e) % 2 ^ 32 = 65536 / e
    exact Nat.mod_eq_of_lt (by omega)
  have hmul : e * (65536 / e) ≤ 65536 := Nat.mul_div_le _ _
  have hrem : 65536 - e * (65536 / e) < e := by
    have h1 := Nat.div_add_mod 65536 e
    have h2 : 65536 % e < e := Nat.mod_lt _ (by omega)
    omega
  refine ⟨_, makePageZero_eq E columnId e he, ?_, ?_, ?_, ?_⟩
  · simp only [RPage.GetMaxElements, hmax]
    exact hmul
  · simp only [RPage.GetMaxElements, hmax]
    exact hrem
  · intro hbig
    simp only [RPage.GetMaxElements, hmax]
    exact Nat.div_eq_of_lt hbig
  · intro hc
    have hcap := withinCapacity_run _ ops (withinCapacity_bound columnId
      (RPage.GetPageZeroBuffer E) 0 e (kPageZeroSize / e)) hc
    have hfix := fixedMembers_run (RPage.RPageBound columnId (RPage.GetPageZeroBuffer E) 0 e
      (kPageZeroSize / e)) ops
    simp only [fixedMembers, Prod.mk.injEq] at hfix
    obtain ⟨-, -, -, hsz, hmx⟩ := hfix
    rw [hmax] at hmx
    have hsz2 : (run (RPage.RPageBound columnId (RPage.GetPageZeroBuffer E) 0 e
        (kPageZeroSize / e)) ops).fElementSize = e % 2 ^ 32 := hsz
    have hcount : (run (RPage.RPageBound columnId (RPage.GetPageZeroBuffer E) 0 e
        (kPageZeroSize / e)) ops).fNElements ≤ 65536 / e := by
      rw [← hmx]
      exact hcap.1
    have hprod : (e % 2 ^ 32) *
        (run (RPage.RPageBound columnId (RPage.GetPageZeroBuffer E) 0 e
          (kPageZeroSize / e)) ops).fNElements ≤ 65536 :=
      le_trans (Nat.mul_le_mul (Nat.mod_le _ _) hcount) hmul
    simp only [RPage.GetNBytes, hsz2]
    exact le_trans (Nat.mod_le _ _) hprod

/-- A run of claim C25: element size 12 leaves 4 bytes unused; the zero page is filled to
its capacity of 5461 elements. -/
theorem zeroPage_capacity_fits_witness :
    ∃ p, RPage.MakePageZero root64 7 12 = some p ∧
      12 * p.GetMaxElements ≤ 65536 ∧
      65536 - 12 * p.GetMaxElements < 12 ∧
      (65536 < 12 → p.GetMaxElements = 0) ∧
      (contractOk p [Op.growUnchecked 5000, Op.setWindow 50 { fId := 3, fIndexOffset := 50 },
          Op.growUnchecked 461] = true →
        (run p [Op.growUnchecked 5000, Op.setWindow 50 { fId := 3, fIndexOffset := 50 },
          Op.growUnchecked 461]).GetNBytes ≤ 65536) :=
  zeroPage_capacity_fits root64 7 12 _ (by decide)

/-! ### The two containment tests -/

/-- Claim C26, as stated, fails: with 64-bit types, on the page of two elements at
globalRangeFirst 2^64 − 2 stamped with cluster 3 and offset 1, the global index 2^64 − 2 is
reported outside by Contains(i) (the upper bound wraps around) and inside by
Contains(cluster index (3, 2^64 − 3)). -/
theorem contains_overloads_disagree :
    (((RPage.RPageBound 1 4096 8192 8 1024).GrowUnchecked 2).2.SetWindow (2 ^ 64 - 2)
        { fId := 3, fIndexOffset := 1 }).GetClusterInfo.GetIndexOffset ≤
      (((RPage.RPageBound 1 4096 8192 8 1024).GrowUnchecked 2).2.SetWindow (2 ^ 64 - 2)
        { fId := 3, fIndexOffset := 1 }).GetGlobalRangeFirst ∧
    1 ≤ 2 ^ 64 - 2 ∧
    RPage.Contains root64
      (((RPage.RPageBound 1 4096 8192 8 1024).GrowUnchecked 2).2.SetWindow (2 ^ 64 - 2)
        { fId := 3, fIndexOffset := 1 }) (2 ^ 64 - 2) = false ∧
    RPage.ContainsCluster root64
      (((RPage.RPageBound 1 4096 8192 8 1024).GrowUnchecked 2).2.SetWindow (2 ^ 64 - 2)
        { fId := 3, fIndexOffset := 1 })
      { fClusterId := 3, fIndex := 2 ^ 64 - 2 - 1 } = true := by
  decide

/-- Claim C26 (amended): for every page with stamped cluster window (cid, offset),
offset ≤ globalRangeFirst and globalRangeFirst + elementCount below the range of
NTupleSize_t (2^64 upstream), and for every global index i ≥ offset, Contains(i) equals
Contains(cluster index (cid, i − offset)).  ClusterSize_t::ValueType is at least as wide
as NTupleSize_t (upstream both have 64 bits). -/
theorem contains_overloads_agree (E : Env) (p : RPage) (i : Nat)
    (hwide : E.ntupleBits ≤ E.clusterBits)
    (hoff : p.GetClusterInfo.GetIndexOffset ≤ p.GetGlobalRangeFirst)
    (hfit : p.GetGlobalRangeFirst + p.GetNElements < 2 ^ E.ntupleBits)
    (hi : p.GetClusterInfo.GetIndexOffset ≤ i) :
    RPage.Contains E p i =
      RPage.ContainsCluster E p
        { fClusterId := p.GetClusterInfo.GetId,
          fIndex := i - p.GetClusterInfo.GetIndexOffset } := by
  simp only [RPage.GetGlobalRangeFirst, RPage.GetNElements, RPage.GetClusterInfo,
    RClusterInfo.GetIndexOffset, RClusterInfo.GetId] at *
  have hle : 2 ^ E.ntupleBits ≤ 2 ^ E.clusterBits := Nat.pow_le_pow_right (by norm_num) hwide
  have hn : toUnsigned E.ntupleBits p.fNElements = p.fNElements :=
    toUnsigned_of_lt (by omega)
  have hs : uadd E.ntupleBits p.fRangeFirst p.fNElements = p.fRangeFirst + p.fNElements :=
    uadd_of_lt hfit
  have hsub : usub E.ntupleBits p.fRangeFirst p.fClusterInfo.fIndexOffset =
      p.fRangeFirst - p.fClusterInfo.fIndexOffset := usub_of_le (by omega) hoff
  have hcv : toUnsigned E.clusterBits (p.fRangeFirst - p.fClusterInfo.fIndexOffset) =
      p.fRangeFirst - p.fClusterInfo.fIndexOffset := toUnsigned_of_lt (by omega)
  have hadd : uadd E.clusterBits (p.fRangeFirst - p.fClusterInfo.fIndexOffset) p.fNElements =
      p.fRangeFirst - p.fClusterInfo.fIndexOffset + p.fNElements := uadd_of_lt (by omega)
  simp only [RPage.Contains, RPage.ContainsCluster, RClusterInfo.GetIndexOffset,
    RClusterInfo.GetId, RClusterIndex.GetClusterId, RClusterIndex.GetIndex, hn, hs, hsub,
    hcv, hadd, ne_eq, not_true_eq_false, if_false]
  rw [Bool.eq_iff_iff]
  simp only [Bool.and_eq_true, decide_eq_true_eq]
  omega

/-- A run of the amended claim C26: the page of 100 elements at 50 in the cluster with
offset 50; the global index 149 is the cluster index 99. -/
theorem contains_overloads_agree_witness :
    RPage.Contains root64
        (((RPage.RPageBound 1 4096 8192 8 1024).GrowUnchecked 100).2.SetWindow 50
          { fId := 3, fIndexOffset := 50 }) 149 =
      RPage.ContainsCluster root64
        (((RPage.RPageBound 1 4096 8192 8 1024).GrowUnchecked 100).2.SetWindow 50
          { fId := 3, fIndexOffset := 50 })
        { fClusterId := (((RPage.RPageBound 1 4096 8192 8 1024).GrowUnchecked 100).2.SetWindow
            50 { fId := 3, fIndexOffset := 50 }).GetClusterInfo.GetId,
          fIndex := 149 - (((RPage.RPageBound 1 4096 8192 8 1024).GrowUnchecked
            100).2.SetWindow 50 { fId := 3, fIndexOffset := 50 }).GetClusterInfo.GetIndexOffset } :=
  contains_overloads_agree root64 _ 149 (by decide) (by decide) (by decide) (by decide)

/-- Claim C27: a page with elementCount == 0 contains no index: Contains(i) is false for
every global index i and Contains(c, j) is false for every cluster index (c, j), whatever
the window is. -/
theorem empty_contains_nothing (E : Env) (p : RPage) (i : Nat) (ci : RClusterIndex)
    (hempty : p.GetNElements = 0) :
    RPage.Contains E p i = false ∧ RPage.ContainsCluster E p ci = false := by
  simp only [RPage.GetNElements] at hempty
  constructor
  · have hle : uadd E.ntupleBits p.fRangeFirst (toUnsigned E.ntupleBits 0) ≤ p.fRangeFirst := by
      simp only [uadd, toUnsigned, Nat.zero_mod, Nat.add_zero]
      exact Nat.mod_le _ _
    simp only [RPage.Contains, hempty, Bool.and_eq_false_imp, decide_eq_true_eq,
      decide_eq_false_iff_not]
    intro h
    omega
  · have hle : ∀ x, uadd E.clusterBits x 0 ≤ x := by
      intro x
      simp only [uadd, Nat.add_zero]
      exact Nat.mod_le _ _
    unfold RPage.ContainsCluster
    split
    · rfl
    · simp only [hempty, Bool.and_eq_false_imp, decide_eq_true_eq, decide_eq_false_iff_not]
      intro h
      have := hle (toUnsigned E.clusterBits
        (usub E.ntupleBits p.fRangeFirst p.fClusterInfo.GetIndexOffset))
      omega

/-- A run of claim C27: a page that held 100 elements, right after Reset(7). -/
theorem empty_contains_nothing_witness :
    ((((RPage.RPageBound 1 4096 8192 8 1024).GrowUnchecked 100).2.SetWindow 50
        { fId := 3, fIndexOffset := 50 }).Reset 7).GetNElements = 0 ∧
    RPage.Contains root64
      ((((RPage.RPageBound 1 4096 8192 8 1024).GrowUnchecked 100).2.SetWindow 50
        { fId := 3, fIndexOffset := 50 }).Reset 7) 7 = false ∧
    RPage.ContainsCluster root64
      ((((RPage.RPageBound 1 4096 8192 8 1024).GrowUnchecked 100).2.SetWindow 50
        { fId := 3, fIndexOffset := 50 }).Reset 7) { fClusterId := 3, fIndex := 0 } = false :=
  ⟨rfl, empty_contains_nothing root64 _ 7 { fClusterId := 3, fIndex := 0 } rfl⟩

/-! ### Move assignment -/

/-- Claim C28: for two distinct page objects a and b, after a = std::move(b) the object a
holds all eight former members of b and b holds all eight former members of a, every other
object is untouched; the assignment b = std::move(a) that follows restores the store, and a
self-assignment changes nothing. -/
theorem moveAssign_exchanges (s : Nat → RPage) (a b : Nat) (hne : a ≠ b) :
    moveAssign s a b a = s b ∧
    moveAssign s a b b = s a ∧
    (∀ c, c ≠ a → c ≠ b → moveAssign s a b c = s c) ∧
    moveAssign (moveAssign s a b) b a = s ∧
    moveAssign s a a = s := by
  have hba : b ≠ a := fun h => hne h.symm
  have h1 : moveAssign s a b a = s b := by simp [moveAssign, hne]
  have h2 : moveAssign s a b b = s a := by simp [moveAssign, hne, hba]
  have h3 : ∀ c, c ≠ a → c ≠ b → moveAssign s a b c = s c := by
    intro c hca hcb
    simp [moveAssign, hne, hca, hcb]
  refine ⟨h1, h2, h3, ?_, ?_⟩
  · funext c
    by_cases hca : c = a
    · subst hca
      have : moveAssign (moveAssign s c b) b c c = moveAssign s c b b := by
        simp [moveAssign, hne, hba]
      rw [this, h2]
    · by_cases hcb : c = b
      · subst hcb
        have : moveAssign (moveAssign s a c) c a c = moveAssign s a c a := by
          simp [moveAssign, hne, hba]
        rw [this, h1]
      · have : moveAssign (moveAssign s a b) b a c = moveAssign s a b c := by
          simp [moveAssign, hne, hba, hca, hcb]
        rw [this, h3 c hca hcb]
  · simp [moveAssign]

/-- A run of claim C28: the page objects at the addresses 100 and 200 exchange a bound
page and a default-constructed one. -/
theorem moveAssign_exchanges_witness :
    moveAssign (fun x => if x = 100 then RPage.RPageBound 1 4096 8192 8 1024
        else RPage.RPageDefault root64) 100 200 100 = RPage.RPageDefault root64 ∧
    moveAssign (fun x => if x = 100 then RPage.RPageBound 1 4096 8192 8 1024
        else RPage.RPageDefault root64) 100 200 200 = RPage.RPageBound 1 4096 8192 8 1024 :=
  ⟨(moveAssign_exchanges (fun x => if x = 100 then RPage.RPageBound 1 4096 8192 8 1024
      else RPage.RPageDefault root64) 100 200 (by decide)).1,
    (moveAssign_exchanges (fun x => if x = 100 then RPage.RPageBound 1 4096 8192 8 1024
      else RPage.RPageDefault root64) 100 200 (by decide)).2.1⟩

end RNTuple

namespace TThreadExecutor

open RNTuple

/-! ### Loops -/

theorem forLoop_closed (stop step : Nat) (hstep : 0 < step) (fuel start : Nat)
    (hfuel : stop - start ≤ fuel) :
    forLoop stop step fuel start =
      (List.range ((stop - start + step - 1) / step)).map (fun k => start + k * step) := by
  induction fuel generalizing start with
  | zero =>
    have h0 : (stop - start + step - 1) / step = 0 :=
      Nat.div_eq_of_lt (by omega)
    simp [forLoop, h0]
  | succ fuel ih =>
    by_cases hlt : start < stop
    · have hcount : (stop - start + step - 1) / step
          = (stop - (start + step) + step - 1) / step + 1 := by
        by_cases hle : start + step ≤ stop
        · have h1 : stop - start + step - 1 = (stop - (start + step) + step - 1) + step := by
            omega
          rw [h1, Nat.add_div_right _ hstep]
        · have h1 : stop - (start + step) + step - 1 = step - 1 := by omega
          have h2 : (step - 1) / step = 0 := Nat.div_eq_of_lt (by omega)
          have h3 : stop - start + step - 1 = (stop - start - 1) + step := by omega
          have h4 : (stop - start - 1) / step = 0 := Nat.div_eq_of_lt (by omega)
          rw [h1, h2, h3, Nat.add_div_right _ hstep, h4]
      simp only [forLoop, hlt, if_true]
      rw [ih (start + step) (by omega), hcount, List.range_succ_eq_map, List.map_cons,
        List.map_map]
      congr 1
      · simp
      · apply List.map_congr_left
        intro k _
        simp only [Function.comp, Nat.succ_eq_add_one]
        rw [Nat.add_mul]
        omega
    · have h0 : (stop - start + step - 1) / step = 0 :=
        Nat.div_eq_of_lt (by omega)
      simp [forLoop, hlt, h0]

theorem takeWhile_range' (i n : Nat) (k s : Nat) (hfit : i + s + k ≤ 2 ^ 32) :
    (List.range' s k).takeWhile (fun j => decide (uadd 32 i j < n)) =
      List.range' s (min k (n - i - s)) := by
  induction k generalizing s with
  | zero => simp
  | succ k ih =>
    have hu : uadd 32 i s = i + s := uadd_of_lt (by omega)
    by_cases hlt : i + s < n
    · have hmin : min (k + 1) (n - i - s) = min k (n - i - (s + 1)) + 1 := by omega
      rw [List.range'_succ, List.takeWhile_cons, hmin, List.range'_succ]
      simp only [hu, hlt, decide_True, if_true]
      rw [ih (s + 1) (by omega)]
    · have hmin : min (k + 1) (n - i - s) = 0 := by omega
      rw [List.range'_succ, List.takeWhile_cons, hmin]
      simp [hu, hlt]

theorem chunkIndices_eq (n step i : Nat) (hfit : i + step ≤ 2 ^ 32) :
    chunkIndices n step i = List.range' i (min step (n - i)) := by
  unfold chunkIndices chunkJs
  rw [List.range_eq_range', takeWhile_range' i n step 0 (by omega)]
  have hmap : (List.range' 0 (min step (n - i - 0))).map (fun j => uadd 32 i j) =
      (List.range' 0 (min step (n - i - 0))).map (fun j => i + j) := by
    apply List.map_congr_left
    intro j hj
    rw [List.mem_range'_1] at hj
    exact uadd_of_lt (by omega)
  rw [hmap, List.map_add_range']
  simp

theorem forLoop_flatMap_chunks (n step : Nat) (hstep : 0 < step) (hfit : n + step ≤ 2 ^ 32)
    (fuel i : Nat) (hfuel : n - i ≤ fuel) :
    (forLoop n step fuel i).flatMap (chunkIndices n step) = List.range' i (n - i) := by
  induction fuel generalizing i with
  | zero =>
    have h0 : n - i = 0 := by omega
    simp [forLoop, h0]
  | succ fuel ih =>
    by_cases hlt : i < n
    · simp only [forLoop, hlt, if_true, List.flatMap_cons]
      rw [ih (i + step) (by omega), chunkIndices_eq n step i (by omega)]
      by_cases hle : i + step ≤ n
      · have h1 : min step (n - i) = step := by omega
        have h2 : n - i = n - (i + step) + step := by omega
        rw [h1, List.range'_append_1, ← h2]
      · have h1 : min step (n - i) = n - i := by omega
        have h2 : n - (i + step) = 0 := by omega
        rw [h1, h2]
        simp
    · have h0 : n - i = 0 := by omega
      simp [forLoop, hlt, h0]

theorem sum_chunk_lengths (n step : Nat) (is : List Nat) :
    (is.map (fun i => (chunkJs n step i).length)).sum =
      (is.flatMap (chunkIndices n step)).length := by
  induction is with
  | nil => rfl
  | cons i is ih =>
    simp only [List.map_cons, List.sum_cons, List.flatMap_cons, List.length_append, ih,
      chunkIndices, List.length_map]

theorem flatMap_map_chunks {β : Type} (f : Nat → β) (n step : Nat) (is : List Nat) :
    is.flatMap (fun i => (chunkIndices n step i).map f) =
      (is.flatMap (chunkIndices n step)).map f := by
  induction is with
  | nil => rfl
  | cons i is ih =>
    simp only [List.flatMap_cons, List.map_append, ih]

theorem map_getElem?_range {α : Type} (args : List α) :
    (List.range args.length).map (fun i => args[i]?) = args.map some := by
  apply List.ext_getElem?
  intro k
  by_cases hk : k < args.length
  · simp [hk, List.getElem?_range]
  · have h1 : args.length ≤ k := by omega
    have e1 : (List.range args.length)[k]? = none :=
      List.getElem?_eq_none (by simp only [List.length_range]; omega)
    have e2 : args[k]? = none := List.getElem?_eq_none h1
    simp only [List.getElem?_map, e1, e2, Option.map_none']

theorem parallelFor_unit (n : Nat) : ParallelFor 0 n 1 = some (List.range n) := by
  have h : forLoop n 1 n 0 = List.range n := by
    rw [forLoop_closed n 1 (by omega) n 0 (by omega)]
    simp
  simp [ParallelFor, h]

theorem chunkStep_eq (n nChunks : Nat) (hc : 1 ≤ nChunks) (hfit : n + nChunks - 1 < 2 ^ 32) :
    chunkStep n nChunks = (n + nChunks - 1) / nChunks := by
  have h : usub 32 (uadd 32 n nChunks) 1 = n + nChunks - 1 := by
    simp only [usub, uadd]
    omega
  simp only [chunkStep, h]

theorem parallelFor_chunks (n nChunks : Nat) (hc : 1 ≤ nChunks)
    (hfit : n + nChunks < 2 ^ 31) :
    ∃ is, ParallelFor 0 n (chunkStep n nChunks) = some is ∧
      is.flatMap (chunkIndices n (chunkStep n nChunks)) = List.range n := by
  have hstep := chunkStep_eq n nChunks hc (by omega)
  by_cases hn : n = 0
  · subst hn
    refine ⟨forLoop 0 (chunkStep 0 nChunks) (0 - 0) 0, ?_, ?_⟩
    · simp [ParallelFor]
    · simp [forLoop]
  · have hpos : 0 < chunkStep n nChunks := by
      rw [hstep]
      exact Nat.div_pos (by omega) (by omega)
    have hle : chunkStep n nChunks ≤ n + nChunks - 1 := by
      rw [hstep]
      exact Nat.div_le_self _ _
    refine ⟨forLoop n (chunkStep n nChunks) (n - 0) 0, ?_, ?_⟩
    · have h0 : chunkStep n nChunks ≠ 0 := by omega
      simp [ParallelFor, h0]
    · rw [forLoop_flatMap_chunks n _ hpos (by omega) (n - 0) 0 (le_refl _),
        List.range_eq_range', Nat.sub_zero]

/-- Claim C21: with ParallelFor(start, end, step, f) taken as one call f(i) for each
i = start, start + step, ... below end, for every nTimes and every nChunks (0 or positive)
with nTimes + nChunks < 2^31, Foreach(func, nTimes, nChunks) returns after exactly nTimes
calls of func; and for every vector whose size plus nChunks is below 2^31,
Foreach(func, args, nChunks) returns after calling func exactly once on each element
args[0], ..., args[size − 1], in this order. -/
theorem foreach_calls (α : Type) (nTimes nChunks : Nat) (args : List α)
    (htimes : nTimes + nChunks < 2 ^ 31) (hargs : args.length + nChunks < 2 ^ 31) :
    Foreach nTimes nChunks = some nTimes ∧
    ForeachVector args nChunks = some (args.map some) := by
  have hsize : toUnsigned 32 args.length = args.length := toUnsigned_of_lt (by omega)
  by_cases hc : nChunks = 0
  · subst hc
    constructor
    · simp [Foreach, parallelFor_unit]
    · simp only [ForeachVector, if_true, hsize, parallelFor_unit, Option.map_some']
      rw [map_getElem?_range]
  · constructor
    · obtain ⟨is, hpf, his⟩ := parallelFor_chunks nTimes nChunks (by omega) htimes
      simp only [Foreach, hc, if_false, hpf, Option.map_some']
      rw [sum_chunk_lengths, his, List.length_range]
    · obtain ⟨is, hpf, his⟩ := parallelFor_chunks args.length nChunks (by omega) hargs
      simp only [ForeachVector, hc, if_false, hsize, hpf, Option.map_some']
      rw [flatMap_map_chunks, his, map_getElem?_range]

/-- A run of claim C21: ten calls in three chunks, and a vector of five elements in two
chunks. -/
theorem foreach_calls_witness :
    Foreach 10 3 = some 10 ∧
    ForeachVector [11, 12, 13, 14, 15] 2 = some ([11, 12, 13, 14, 15].map some) :=
  foreach_calls Nat 10 3 [11, 12, 13, 14, 15] (by decide) (by decide)

/-! ### Chunked Map and MapReduce -/

/-- Claim C22 fails on the code: for the vector (1, 2, 3), func the identity, redfunc the
product of integers and nChunks 2, the second chunk holds the single element 3, but its
partialResults vector has step = 2 elements, (3, 0), so its partial result is 0 and the
chunked MapReduce returns 0, while the unchunked MapReduce returns 6.  The overload for
nTimes sizes partialResults to the chunk: three calls returning 5 in two chunks give the
partial results 25 and 5. -/
theorem mapReduce_chunked_padding :
    chunkStep (toUnsigned 32 [(1 : Int), 2, 3].length) 2 = 2 ∧
    partialResultsVector (0 : Int) (fun x => x) [1, 2, 3] 3 2 2 = [3, 0] ∧
    MapVectorChunked (0 : Int) (fun x => x) [1, 2, 3] (fun a b => a * b) 2 = some [2, 0] ∧
    MapReduceVectorChunked (0 : Int) (fun x => x) [1, 2, 3] (fun a b => a * b) 2 = some 0 ∧
    MapReduceVector (0 : Int) (fun x => x) [1, 2, 3] (fun a b => a * b) = some 6 ∧
    MapTimesChunked (0 : Int) 5 3 (fun a b => a * b) 2 = some [25, 5] := by
  decide

theorem ceil_div_bounds (x d : Nat) (hx : 1 ≤ x) (hd : 1 ≤ d) :
    1 ≤ (x + d - 1) / d ∧ x ≤ (x + d - 1) / d * d ∧ ((x + d - 1) / d - 1) * d < x := by
  have hdiv := Nat.div_add_mod (x + d - 1) d
  have hmod : (x + d - 1) % d < d := Nat.mod_lt _ (by omega)
  have hcomm : d * ((x + d - 1) / d) = (x + d - 1) / d * d := Nat.mul_comm _ _
  have hpos : 1 ≤ (x + d - 1) / d := Nat.div_pos (by omega) (by omega)
  have hsub : ((x + d - 1) / d - 1) * d = (x + d - 1) / d * d - d := by
    rw [Nat.sub_mul, Nat.one_mul]
  refine ⟨hpos, by omega, ?_⟩
  rw [hsub]
  omega

theorem forLoop_slots (n step : Nat) (hstep : 0 < step) :
    (forLoop n step (n - 0) 0).map (fun i => i / step) =
      List.range ((n + step - 1) / step) := by
  have hfun : ∀ k ∈ List.range ((n + step - 1) / step),
      ((fun i => i / step) ∘ fun k => 0 + k * step) k = id k := by
    intro k _
    simp only [Function.comp_apply, id_eq, Nat.zero_add]
    exact Nat.mul_div_cancel k hstep
  rw [forLoop_closed n step hstep (n - 0) 0 (le_refl _), List.map_map, Nat.sub_zero,
    List.map_congr_left hfun, List.map_id]

/-- Claim C29, as stated, fails: for n = 2^31 + 1 and nChunks = 1 the sum n + step − 1
wraps around in 32 bits, and actualChunks is 0 although there is one chunk, starting
at 0. -/
theorem actualChunks_wraps :
    2 ^ 31 + 1 + 1 - 1 < 2 ^ 32 ∧
    chunkStep (2 ^ 31 + 1) 1 = 2 ^ 31 + 1 ∧
    actualChunks (2 ^ 31 + 1) (chunkStep (2 ^ 31 + 1) 1) = some 0 ∧
    (2 ^ 31 + 1 + (2 ^ 31 + 1) - 1) / (2 ^ 31 + 1) = 1 := by
  decide

/-- Claim C29 (amended): in the chunked Map overloads, for every input size n ≥ 1 and
every nChunks ≥ 1 with n + nChunks − 1 < 2^32 and n + step − 1 < 2^32:
step == ceil(n / nChunks) ≥ 1, actualChunks == ceil(n / step) satisfies
1 ≤ actualChunks ≤ nChunks, no chunk is empty ((actualChunks − 1) × step < n), and the chunk
starts 0, step, 2·step, ... below n map to the slot indices i / step = 0, 1, ...,
actualChunks − 1, each slot exactly once. -/
theorem chunk_layout (n nChunks : Nat) (hn : 1 ≤ n) (hc : 1 ≤ nChunks)
    (hfit : n + nChunks - 1 < 2 ^ 32) (hfit2 : n + chunkStep n nChunks - 1 < 2 ^ 32) :
    1 ≤ chunkStep n nChunks ∧
    n ≤ chunkStep n nChunks * nChunks ∧
    (chunkStep n nChunks - 1) * nChunks < n ∧
    ∃ a, actualChunks n (chunkStep n nChunks) = some a ∧
      1 ≤ a ∧ a ≤ nChunks ∧
      n ≤ a * chunkStep n nChunks ∧
      (a - 1) * chunkStep n nChunks < n ∧
      ∃ is, ParallelFor 0 n (chunkStep n nChunks) = some is ∧
        is.map (fun i => i / chunkStep n nChunks) = List.range a := by
  have hstep := chunkStep_eq n nChunks hc hfit
  obtain ⟨hs1, hs2, hs3⟩ := ceil_div_bounds n nChunks hn hc
  rw [← hstep] at hs1 hs2 hs3
  obtain ⟨ha1, ha2, ha3⟩ := ceil_div_bounds n (chunkStep n nChunks) hn hs1
  have hs0 : chunkStep n nChunks ≠ 0 := by omega
  have hnum : usub 32 (uadd 32 n (chunkStep n nChunks)) 1 = n + chunkStep n nChunks - 1 := by
    simp only [usub, uadd]
    omega
  have hact : actualChunks n (chunkStep n nChunks) =
      some ((n + chunkStep n nChunks - 1) / chunkStep n nChunks) := by
    simp only [actualChunks, hs0, if_false, hnum]
  have hle : (n + chunkStep n nChunks - 1) / chunkStep n nChunks ≤ nChunks := by
    apply Nat.le_of_lt_succ
    rw [Nat.div_lt_iff_lt_mul (by omega)]
    have hexp : (nChunks + 1) * chunkStep n nChunks =
        chunkStep n nChunks * nChunks + chunkStep n nChunks := by
      rw [Nat.add_mul, Nat.one_mul, Nat.mul_comm]
    rw [Nat.succ_eq_add_one, hexp]
    omega
  refine ⟨hs1, hs2, hs3, _, hact, ha1, hle, ha2, ha3,
    forLoop n (chunkStep n nChunks) (n - 0) 0, ?_, ?_⟩
  · simp [ParallelFor, hs0]
  · exact forLoop_slots n (chunkStep n nChunks) hs1

/-- A run of the amended claim C29: ten elements in four chunks give step 3 and the four
chunk starts 0, 3, 6, 9. -/
theorem chunk_layout_witness :
    chunkStep 10 4 = 3 ∧
    1 ≤ chunkStep 10 4 ∧
    10 ≤ chunkStep 10 4 * 4 ∧
    (chunkStep 10 4 - 1) * 4 < 10 ∧
    ∃ a, actualChunks 10 (chunkStep 10 4) = some a ∧
      1 ≤ a ∧ a ≤ 4 ∧
      10 ≤ a * chunkStep 10 4 ∧
      (a - 1) * chunkStep 10 4 < 10 ∧
      ∃ is, ParallelFor 0 10 (chunkStep 10 4) = some is ∧
        is.map (fun i => i / chunkStep 10 4) = List.range a :=
  ⟨by decide, chunk_layout 10 4 (by decide) (by decide) (by decide) (by decide)⟩

/-- Claim C30 fails on the code: for input size 0 and nChunks 1 the step is
(0 + 1 − 1) / 1 = 0, and the next statement divides by it; neither chunked Map overload
has a result for nTimes == 0 or an empty vector.  The same happens when n + nChunks − 1
wraps around (n = 2, nChunks = 2^32 − 1). -/
theorem chunked_map_divides_by_zero :
    chunkStep 0 1 = 0 ∧
    actualChunks 0 (chunkStep 0 1) = none ∧
    MapTimesChunked (0 : Int) 5 0 (fun a b => a + b) 1 = none ∧
    MapVectorChunked (0 : Int) (fun x => x) [] (fun a b => a + b) 1 = none ∧
    chunkStep 2 (2 ^ 32 - 1) = 0 ∧
    actualChunks 2 (chunkStep 2 (2 ^ 32 - 1)) = none := by
  decide

end TThreadExecutor
